import Mathlib

/-!
Shallow embedding of the thumbnail-table cache of `src/dtgtk/thumbtable.c`
(R-Darktable).  The C module keeps a double reference of thumbnail objects:
a linked list `table->list` (the live set, owning the objects) and a dense
array `table->lut` (the Index, one entry per collection position, holding the
image id and a non-owning back-reference to the live thumbnail).

Modelling conventions, matching the source file:
- C `int` fields become `Int`; `size_t` counters (`collection_count`) become
  `Nat`; C integer division (truncation toward zero) becomes `Int.tdiv` /
  `Int.tmod`.
- A C pointer to a thumbnail is modelled by a numeric identity `tid`,
  allocated from the monotone counter `next_tid`; the live list owns the
  thumbnail records and the lut stores `Option Nat` back-references, exactly
  mirroring the ownership comment at the top of thumbtable.c.
- The globals `dt_control_set_mouse_over_id` / `dt_control_set_keyboard_over_id`
  are folded into the table state as two `Int` fields.
- GTK scrollbar adjustments are modelled by their value and page-size fields;
  `gtk_adjustment_set_value` synchronously emits value-changed, which runs
  `_adjust_value_changed`, hence `_update_row_ids`; this is modelled inline.
  The scrollbar objects themselves are created unconditionally in
  `dt_thumbtable_new`, so the `!table->v_scrollbar` null checks never fire and
  are dropped from the model.
- Reads of `table->lut[i]` outside the allocated range are undefined behaviour
  in C.  Where a loop bound already prevents them they cannot occur; where the
  code reads `lut[thumb->rowid]` unchecked (`_garbage_collection`), the model
  uses `List.getD` with a sentinel entry of image id -1, and every theorem that
  depends on such a read carries an in-bounds hypothesis.  `_move_in_grid`
  dereferences `table->lut[new_rowid]` unconditionally; there the model
  returns `none` when the access would be out of bounds (or through a null
  lut), making the unsafe access observable.
- Purely visual per-thumbnail flags (mouse-over styling, selection CSS) and
  GTK widget attach/move calls have no bearing on any claim and are omitted;
  the geometric fields (width, height, x, y) are kept.
-/

namespace Thumbtable

/-- Layout mode of the table: lighttable grid, filmstrip, or detached. -/
inductive dt_thumbtable_mode_t where
  | DT_THUMBTABLE_MODE_FILEMANAGER
  | DT_THUMBTABLE_MODE_FILMSTRIP
  | DT_THUMBTABLE_MODE_NONE
deriving DecidableEq, Repr

export dt_thumbtable_mode_t (DT_THUMBTABLE_MODE_FILEMANAGER DT_THUMBTABLE_MODE_FILMSTRIP DT_THUMBTABLE_MODE_NONE)

/-- Navigation direction, from the `dt_thumbtable_direction_t` enum. -/
inductive dt_thumbtable_direction_t where
  | DT_TT_MOVE_UP
  | DT_TT_MOVE_DOWN
  | DT_TT_MOVE_LEFT
  | DT_TT_MOVE_RIGHT
  | DT_TT_MOVE_PREVIOUS_PAGE
  | DT_TT_MOVE_NEXT_PAGE
  | DT_TT_MOVE_START
  | DT_TT_MOVE_END
deriving DecidableEq, Repr

export dt_thumbtable_direction_t (DT_TT_MOVE_UP DT_TT_MOVE_DOWN DT_TT_MOVE_LEFT DT_TT_MOVE_RIGHT DT_TT_MOVE_PREVIOUS_PAGE DT_TT_MOVE_NEXT_PAGE DT_TT_MOVE_START DT_TT_MOVE_END)

/-- A live thumbnail object (`dt_thumbnail_t`): the fields of the C struct the
cache logic reads or writes, plus `tid`, the model of the object's pointer
identity. -/
structure dt_thumbnail_t where
  tid : Nat
  imgid : Int
  rowid : Int
  width : Int
  height : Int
  x : Int
  y : Int
deriving DecidableEq, Repr

/-- One Index entry (`dt_thumbtable_cache_t`): image id at this collection
position, and the non-owning back-reference to the live thumbnail, if any. -/
structure dt_thumbtable_cache_t where
  imgid : Int
  thumb : Option Nat
deriving DecidableEq, Repr

/-- The thumbtable state (`dt_thumbtable_t`), restricted to the fields the
cache logic uses.  `mouse_over_id` / `keyboard_over_id` model the two
`dt_control` globals; `next_tid` is the allocator for thumbnail identities. -/
structure dt_thumbtable_t where
  mode : dt_thumbtable_mode_t
  thumbs_per_row : Int
  thumb_width : Int
  thumb_height : Int
  view_width : Int
  view_height : Int
  configured : Bool
  collection_inited : Bool
  thumbs_inited : Bool
  reset_collection : Bool
  collection_count : Nat
  collection_hash : Int
  lut : Option (List dt_thumbtable_cache_t)
  list : List dt_thumbnail_t
  thumb_nb : Int
  min_row_id : Int
  max_row_id : Int
  v_scroll_value : Int
  v_scroll_page : Int
  h_scroll_value : Int
  h_scroll_page : Int
  x_position : Int
  y_position : Int
  mouse_over_id : Int
  keyboard_over_id : Int
  next_tid : Nat
deriving DecidableEq, Repr

/-- The glib `CLAMP(x, low, high)` macro:
`((x) > (high)) ? (high) : (((x) < (low)) ? (low) : (x))`. -/
def cCLAMP (x low high : Int) : Int :=
  if x > high then high else if x < low then low else x

/-- The sentinel entry returned for a modelled out-of-bounds Index read
(undefined behaviour in the C source; see the header comment). -/
def lutSentinel : dt_thumbtable_cache_t := { imgid := -1, thumb := none }

/-- The Index as a list; a null `table->lut` is read as the empty list only
where the C code would already have crashed, and every theorem supplies the
actual list. -/
def lutList (t : dt_thumbtable_t) : List dt_thumbtable_cache_t :=
  t.lut.getD []

/-- The image id the C code reads with `table->lut[rowid].imgid` when it does
not bound-check `rowid` (sentinel -1 when out of range, see header). -/
def lutImgidAt (lut : List dt_thumbtable_cache_t) (rowid : Int) : Int :=
  (lut.getD rowid.toNat lutSentinel).imgid

/-- A checked Index read: `some` entry exactly when `rowid` addresses an
existing entry of `table->lut`. -/
def lutEntry? (t : dt_thumbtable_t) (rowid : Int) : Option dt_thumbtable_cache_t :=
  match t.lut with
  | none => none
  | some l => if rowid < 0 then none else l.get? rowid.toNat

/-- The image id stored at a position of the Index, when that position exists
(`Index[position].identifier` in the spec's words). -/
def lutImgid? (t : dt_thumbtable_t) (rowid : Int) : Option Int :=
  (lutEntry? t rowid).map (fun e => e.imgid)

/-- `_rowid_to_position`: map a collection position to pixel coordinates.
In C the results are written through out-pointers that are left untouched in
`DT_THUMBTABLE_MODE_NONE`; the model threads the caller's initial values. -/
def _rowid_to_position (t : dt_thumbtable_t) (index : Int) (init : Int × Int) : Int × Int :=
  match t.mode with
  | DT_THUMBTABLE_MODE_FILEMANAGER =>
    let row := index.tdiv t.thumbs_per_row
    let col := index.tmod t.thumbs_per_row
    (col * t.thumb_width, row * t.thumb_height)
  | DT_THUMBTABLE_MODE_FILMSTRIP =>
    (index * t.thumb_width, 0)
  | DT_THUMBTABLE_MODE_NONE => init

/-- `_set_thumb_position`: returns `none` (C: `FALSE`, coordinates left
untouched) when `thumbs_per_row < 1`, otherwise the thumbnail with its
coordinates recomputed from its rowid. -/
def _set_thumb_position (t : dt_thumbtable_t) (th : dt_thumbnail_t) : Option dt_thumbnail_t :=
  if t.thumbs_per_row < 1 then none
  else
    let p := _rowid_to_position t th.rowid (th.x, th.y)
    some { th with x := p.1, y := p.2 }

/-- The C call sites ignore `_set_thumb_position`'s boolean result and keep
the previous coordinates on failure; this helper applies that behaviour. -/
def setThumbPositionD (t : dt_thumbtable_t) (th : dt_thumbnail_t) : dt_thumbnail_t :=
  (_set_thumb_position t th).getD th

/-- `_get_row_ids`: the desired window of collection positions at the current
scroll state, written through out-parameters whose incoming values are kept
when the function does not touch them (unconfigured table, or mode NONE). -/
def _get_row_ids (t : dt_thumbtable_t) (rowid_min rowid_max : Int) : Bool × Int × Int :=
  if t.configured = false then (false, rowid_min, rowid_max)
  else
    match t.mode with
    | DT_THUMBTABLE_MODE_FILEMANAGER =>
      let page_size := t.v_scroll_page
      let position := t.v_scroll_value
      let row_min := position.tdiv t.thumb_height - 2
      let row_max := (position + page_size).tdiv t.thumb_height + 2
      (true, row_min * t.thumbs_per_row, row_max * t.thumbs_per_row)
    | DT_THUMBTABLE_MODE_FILMSTRIP =>
      let page_size := t.h_scroll_page
      let position := t.h_scroll_value
      let row_min := (position - page_size).tdiv t.thumb_width
      let row_max := (position + 2 * page_size).tdiv t.thumb_width
      (true, row_min * t.thumbs_per_row, row_max * t.thumbs_per_row)
    | DT_THUMBTABLE_MODE_NONE => (true, rowid_min, rowid_max)

/-- `_is_rowid_visible`: whether a collection position is fully visible at the
current scroll step (unpadded visible range).  The filmstrip branch multiplies
by `thumb_height` as the source does (equal to `thumb_width` in that mode). -/
def _is_rowid_visible (t : dt_thumbtable_t) (rowid : Int) : Bool :=
  if t.configured = false then false
  else
    match t.mode with
    | DT_THUMBTABLE_MODE_FILEMANAGER =>
      let page_size := t.v_scroll_page
      let position := t.v_scroll_value
      let page_bottom := page_size + position
      let img_top := (rowid.tdiv t.thumbs_per_row) * t.thumb_height
      let img_bottom := img_top + t.thumb_height
      decide (img_top ≥ position ∧ img_bottom ≤ page_bottom)
    | DT_THUMBTABLE_MODE_FILMSTRIP =>
      let page_size := t.h_scroll_page
      let position := t.h_scroll_value
      let page_right := page_size + position
      let img_left := rowid * t.thumb_height
      let img_right := img_left + t.thumb_width
      decide (img_left ≥ position ∧ img_right ≤ page_right)
    | DT_THUMBTABLE_MODE_NONE => false

/-- `_update_row_ids`: recompute the desired window (defaults `0, 210` when
`_get_row_ids` does not write its outputs) and invalidate the populate state
when it moved. -/
def _update_row_ids (t : dt_thumbtable_t) : dt_thumbtable_t :=
  let r := _get_row_ids t 0 210
  let rowid_min := r.2.1
  let rowid_max := r.2.2
  if rowid_min ≠ t.min_row_id ∨ rowid_max ≠ t.max_row_id then
    { t with min_row_id := rowid_min, max_row_id := rowid_max, thumbs_inited := false }
  else t

/-- `_grid_configure`: record the geometry.  `thumb_width` is computed in C as
`(int)floorf((float)width / (float)cols)`, i.e. floor division, undefined for
`cols = 0` (modelled as `Int.fdiv`, which returns 0 there); the flag and
`thumbs_per_row` assignments do not depend on that value.  Note that
`configured` is set for any mode and any `cols`. -/
def _grid_configure (t : dt_thumbtable_t) (width height cols : Int) : dt_thumbtable_t :=
  if width < 32 ∨ height < 32 then t
  else
    let t1 :=
      match t.mode with
      | DT_THUMBTABLE_MODE_FILEMANAGER =>
        let tw := Int.fdiv width cols
        { t with thumbs_per_row := cols, view_width := width, view_height := height,
                 thumb_width := tw,
                 thumb_height := if cols = 1 then height else tw }
      | DT_THUMBTABLE_MODE_FILMSTRIP =>
        { t with thumbs_per_row := 1, view_width := width, view_height := height,
                 thumb_height := height, thumb_width := height }
      | DT_THUMBTABLE_MODE_NONE => t
    { t1 with configured := true }

/-- Modelled from the spec: `dt_thumbnail_new` (thumbnail.c is not part of
src/).  The materialization collaborator creates a live object carrying the
identifier and position it was created for; its geometry is recorded by the
first `dt_thumbnail_resize`.  `tid` models the fresh pointer returned. -/
def dt_thumbnail_new (imgid rowid : Int) (tid : Nat) : dt_thumbnail_t :=
  { tid := tid, imgid := imgid, rowid := rowid, width := 0, height := 0, x := 0, y := 0 }

/-- Modelled from the spec: `dt_thumbnail_resize` (thumbnail.c is not part of
src/) records the new geometry on the live object; the overlay/widget work it
also performs has no bearing on the cache state. -/
def dt_thumbnail_resize (t : dt_thumbtable_t) (th : dt_thumbnail_t) : dt_thumbnail_t :=
  { th with width := t.thumb_width, height := t.thumb_height }

/-- `_dt_thumbtable_empty_list`: destroy every thumbnail of the list and reset
the counters.  The lut back-references are NOT cleared here (the C comment in
`_garbage_collection` relies on the lut having been rebuilt separately). -/
def _dt_thumbtable_empty_list (t : dt_thumbtable_t) : dt_thumbtable_t :=
  { t with list := [], thumb_nb := 0, thumbs_inited := false }

/-- The lower populate bound, `MAX(table->min_row_id, 0)` as a `size_t`. -/
def populateLower (t : dt_thumbtable_t) : Nat :=
  (max t.min_row_id 0).toNat

/-- The upper populate bound, `MIN(table->max_row_id, table->collection_count)`
with C usual-arithmetic conversions: `max_row_id` (int) is converted to
`size_t`, so a negative value compares as huge and the minimum degenerates to
`collection_count`. -/
def populateUpper (t : dt_thumbtable_t) : Nat :=
  if t.max_row_id < 0 then t.collection_count
  else min t.max_row_id.toNat t.collection_count

/-- The positions visited by the `_populate_thumbnails` loop. -/
def populateRange (t : dt_thumbtable_t) : List Nat :=
  List.range' (populateLower t) (populateUpper t - populateLower t)

/-- One iteration of the `_populate_thumbnails` loop at position `i`.
A `some tid` back-reference whose thumbnail is not in the list is a dangling
pointer in C (only reachable through states the update cycle never produces);
it is modelled as the `if(!thumb) continue` branch.  The two asserts of the
source are release-mode no-ops.  `dt_thumbnail_set_mouseover` only touches a
visual flag and is omitted. -/
def populateStep (t : dt_thumbtable_t) (num : Int) (i : Nat) : dt_thumbtable_t × Int :=
  let l := lutList t
  let e := l.getD i lutSentinel
  let nid := e.imgid
  match e.thumb with
  | none =>
    let tid := t.next_tid
    let th0 := dt_thumbnail_new nid (i : Int) tid
    let th1 := setThumbPositionD t (dt_thumbnail_resize t th0)
    ({ t with lut := some (l.set i { e with thumb := some tid }),
              list := th1 :: t.list,
              next_tid := tid + 1 }, num + 1)
  | some tid =>
    match t.list.find? (fun u => u.tid = tid) with
    | none => (t, num)
    | some th =>
      if t.thumb_height ≠ th.height ∨ t.thumb_width ≠ th.width then
        let th1 := setThumbPositionD t (dt_thumbnail_resize t th)
        ({ t with list := t.list.map (fun u => if u.tid = tid then th1 else u) }, num)
      else (t, num)

/-- The `_populate_thumbnails` loop over a list of positions. -/
def populateLoop : List Nat → dt_thumbtable_t → Int → dt_thumbtable_t × Int
  | [], t, num => (t, num)
  | i :: rest, t, num =>
    let r := populateStep t num i
    populateLoop rest r.1 r.2

/-- `_populate_thumbnails`: materialize and/or resize every thumbnail in the
populate window. -/
def _populate_thumbnails (t : dt_thumbtable_t) (num : Int) : dt_thumbtable_t × Int :=
  populateLoop (populateRange t) t num

/-- The staleness test of `_garbage_collection`, line for line:
`!(thumb->imgid == table->lut[thumb->rowid].imgid)`. -/
def gcStaleB (lut : List dt_thumbtable_cache_t) (th : dt_thumbnail_t) : Bool :=
  decide (th.imgid ≠ lutImgidAt lut th.rowid)

/-- The out-of-window test of `_garbage_collection`, line for line:
`thumb->rowid < table->min_row_id || thumb->rowid > table->max_row_id`
(note: a closed window, `rowid` equal to `max_row_id` counts as inside). -/
def gcOutsideB (t : dt_thumbtable_t) (th : dt_thumbnail_t) : Bool :=
  decide (th.rowid < t.min_row_id ∨ th.rowid > t.max_row_id)

/-- The `_garbage_collection` loop: walk the live list, destroying a thumbnail
when `collect_garbage || !is_in_collection`; an in-collection evicted
thumbnail clears its lut back-reference first.  Threads the lut and the
running `*num_thumb` counter through the walk. -/
def gcGo (t : dt_thumbtable_t) :
    List dt_thumbnail_t → List dt_thumbtable_cache_t → Int →
    List dt_thumbnail_t × List dt_thumbtable_cache_t × Int
  | [], lut, num => ([], lut, num)
  | th :: rest, lut, num =>
    let collect_garbage := decide (t.thumb_nb + num > 210) && gcOutsideB t th
    let is_in_collection := !gcStaleB lut th
    if collect_garbage || !is_in_collection then
      let lut1 :=
        if is_in_collection then
          lut.set th.rowid.toNat { lut.getD th.rowid.toNat lutSentinel with thumb := none }
        else lut
      gcGo t rest lut1 (num - 1)
    else
      let r := gcGo t rest lut num
      (th :: r.1, r.2.1, r.2.2)

/-- `_garbage_collection`: remove stale thumbnails, and thumbnails outside the
window once more than 210 are alive. -/
def _garbage_collection (t : dt_thumbtable_t) (num : Int) : dt_thumbtable_t × Int :=
  let r := gcGo t t.list (lutList t) num
  ({ t with list := r.1, lut := if t.lut.isSome then some r.2.1 else none }, r.2.2)

/-- `_resize_thumbnails`: re-fit surviving thumbnails that sit outside the
populate window and still carry out-of-date geometry. -/
def _resize_thumbnails (t : dt_thumbtable_t) : dt_thumbtable_t :=
  { t with list := t.list.map (fun th =>
      if ¬(th.rowid ≥ t.min_row_id ∧ th.rowid < t.max_row_id)
         ∧ (t.thumb_height ≠ th.height ∨ t.thumb_width ≠ th.width) then
        setThumbPositionD t (dt_thumbnail_resize t th)
      else th) }

/-- The reset step at the top of `dt_thumbtable_update`: flush the live list
when a forced collection reset is pending. -/
def updateT1 (t : dt_thumbtable_t) : dt_thumbtable_t :=
  if t.reset_collection
  then { _dt_thumbtable_empty_list t with reset_collection := false }
  else t

/-- The body of `dt_thumbtable_update` after its entry guard: populate runs
first; garbage collection and the off-window resize pass run only when the
list was non-empty before populate; finally the thumbnail counter absorbs the
cycle's net count and the populate state is marked clean. -/
def updateBody (t : dt_thumbtable_t) : dt_thumbtable_t :=
  let t1 := updateT1 t
  let empty_list := t1.list.isEmpty
  let p := _populate_thumbnails t1 0
  let q := if !empty_list then
             let g := _garbage_collection p.1 p.2
             (_resize_thumbnails g.1, g.2)
           else p
  { q.1 with thumb_nb := q.1.thumb_nb + q.2, thumbs_inited := true }

/-- `dt_thumbtable_update`: one reconciliation cycle, guarded by the Index
existing, the geometry being configured, the collection being known, and the
populate state being dirty. -/
def dt_thumbtable_update (t : dt_thumbtable_t) : dt_thumbtable_t :=
  if t.lut.isNone || !t.configured || !t.collection_inited || t.thumbs_inited then t
  else updateBody t

/-- `_dt_collection_lut`: rebuild the Index from the fetched ordered image-id
sequence.  The SQLite query and `GList` plumbing are external; `fetched` is
the sequence the query returned (empty on an empty result), `allocOk` models
the `malloc` outcome.  Note the source's order of effects: an empty result
zeroes `collection_count` and returns with the old lut still in place; a
failed allocation has already freed the old lut and keeps the new count. -/
def _dt_collection_lut (t : dt_thumbtable_t) (fetched : List Int) (allocOk : Bool) :
    dt_thumbtable_t :=
  if fetched = [] then { t with collection_count := 0 }
  else
    let t1 := { t with collection_count := fetched.length }
    if allocOk = false then { t1 with lut := none }
    else { t1 with lut := some (fetched.map (fun id => { imgid := id, thumb := none })) }

/-- `_dt_collection_get_hash`: compare the collection fingerprint (an opaque
hash of the query string mixed with the image count, both computed externally
and passed in here) against the stored one; on change record the new
fingerprint, mark the caches dirty and rebuild the Index.  Returns 1 when a
rebuild happened, 0 otherwise. -/
def _dt_collection_get_hash (t : dt_thumbtable_t) (hash : Int) (num_pics : Nat)
    (fetched : List Int) (allocOk : Bool) : dt_thumbtable_t × Int :=
  if hash ≠ t.collection_hash ∨ t.reset_collection then
    let t1 := { t with collection_hash := hash, collection_count := num_pics,
                       collection_inited := true, thumbs_inited := false }
    (_dt_collection_lut t1 fetched allocOk, 1)
  else (t, 0)

/-- The linear Index scan shared (inlined in C) by `_imgid_to_rowid` and
`dt_thumbtable_scroll_to_imgid`: first position whose entry carries `imgid`,
-1 when absent.  `i` is the loop counter's current value. -/
def lutFindRow : List dt_thumbtable_cache_t → Int → Nat → Int
  | [], _, _ => -1
  | e :: rest, imgid, i => if e.imgid = imgid then (i : Int) else lutFindRow rest imgid (i + 1)

/-- `_imgid_to_rowid`: position lookup over the Index (`lookup_position` in
the spec); -1 when the lut is null or the id is absent.  The loop reads
`lut[i]` for `i < collection_count`, hence the `take`. -/
def _imgid_to_rowid (t : dt_thumbtable_t) (imgid : Int) : Int :=
  match t.lut with
  | none => -1
  | some l => lutFindRow (l.take t.collection_count) imgid 0

/-- `dt_thumbtable_scroll_to_imgid`: center the view on an image.  Setting a
GTK adjustment value synchronously emits value-changed, which runs
`_adjust_value_changed` and hence `_update_row_ids`; both emissions are
modelled inline.  GTK's clamping of the adjustment value to its range is not
modelled (the range lives in the unmodelled widget). -/
def dt_thumbtable_scroll_to_imgid (t : dt_thumbtable_t) (imgid : Int) : dt_thumbtable_t :=
  if !t.collection_inited || imgid < 0 then t
  else
    let rowid := lutFindRow ((lutList t).take t.collection_count) imgid 0
    if rowid = -1 then t
    else
      let p := _rowid_to_position t rowid (0, 0)
      let x := p.1 + t.thumb_width.tdiv 2
      let y := p.2 + t.thumb_height.tdiv 2
      let t1 := _update_row_ids { t with v_scroll_value := y - t.view_height.tdiv 2 }
      let t2 := _update_row_ids { t1 with h_scroll_value := x - t1.view_width.tdiv 2 }
      { t2 with x_position := x, y_position := y }

/-- The position offset `_move_in_grid` computes for a direction.  The page
offsets divide by `thumb_height` (undefined in C when zero; theorems assume a
positive height) and `DT_TT_MOVE_START` subtracts the origin image id, as the
source does. -/
def navOffset (t : dt_thumbtable_t) (direction : dt_thumbtable_direction_t)
    (origin_imgid : Int) : Int :=
  match direction with
  | DT_TT_MOVE_UP => -t.thumbs_per_row
  | DT_TT_MOVE_DOWN => t.thumbs_per_row
  | DT_TT_MOVE_LEFT => -1
  | DT_TT_MOVE_RIGHT => 1
  | DT_TT_MOVE_PREVIOUS_PAGE => (-t.view_height).tdiv t.thumb_height * t.thumbs_per_row
  | DT_TT_MOVE_NEXT_PAGE => t.view_height.tdiv t.thumb_height * t.thumbs_per_row
  | DT_TT_MOVE_START => -origin_imgid
  | DT_TT_MOVE_END => (t.collection_count : Int)

/-- `_move_in_grid`: translate a direction into a clamped target position,
set both hover globals to the target's image id, then either scroll to it or
refresh in place.  The C code dereferences `table->lut[new_rowid]` with no
bounds or null check; the model returns `none` exactly when that access has
no defined result (null lut or position outside it), together with the
resolved target position on success. -/
def _move_in_grid (t : dt_thumbtable_t) (direction : dt_thumbtable_direction_t)
    (origin_imgid : Int) : Option (dt_thumbtable_t × Int) :=
  let current_rowid := _imgid_to_rowid t origin_imgid
  let offset := navOffset t direction origin_imgid
  let new_rowid := cCLAMP (current_rowid + offset) 0 ((t.collection_count : Int) - 1)
  match lutEntry? t new_rowid with
  | none => none
  | some e =>
    let new_imgid := e.imgid
    let t1 := { t with mouse_over_id := new_imgid, keyboard_over_id := new_imgid }
    if !_is_rowid_visible t1 new_rowid then
      some (dt_thumbtable_scroll_to_imgid t1 new_imgid, new_rowid)
    else
      some (dt_thumbtable_update { t1 with thumbs_inited := false }, new_rowid)

/-- The navigation target position as the spec describes it: current position
plus the direction offset, clamped to the dataset bounds. -/
def navTargetRowid (t : dt_thumbtable_t) (direction : dt_thumbtable_direction_t)
    (origin_imgid : Int) : Int :=
  cCLAMP (_imgid_to_rowid t origin_imgid + navOffset t direction origin_imgid)
    0 ((t.collection_count : Int) - 1)

/-- The target position's identifier, in the spec's words the value that both
hover globals must carry after a navigation move. -/
def navTargetImgid (t : dt_thumbtable_t) (direction : dt_thumbtable_direction_t)
    (origin_imgid : Int) : Int :=
  lutImgidAt (lutList t) (navTargetRowid t direction origin_imgid)

/-- Modelled from the spec: the first grid row the viewport touches,
`scroll_offset div cell_height` (mathematical floor division; the scroll
offset is non-negative in a scrolled window). -/
def specGridFirstTouchedRow (t : dt_thumbtable_t) : Int :=
  t.v_scroll_value / t.thumb_height

/-- Modelled from the spec: the last grid row the viewport touches,
`(scroll_offset + page_size) div cell_height`. -/
def specGridLastTouchedRow (t : dt_thumbtable_t) : Int :=
  (t.v_scroll_value + t.v_scroll_page) / t.thumb_height

/-- Modelled from the spec: the first filmstrip cell the viewport touches,
`scroll_offset div cell_width`. -/
def specStripFirstTouchedCell (t : dt_thumbtable_t) : Int :=
  t.h_scroll_value / t.thumb_width

/-- All table fields except the Index, the live list, the identity allocator
and the three fields the update entry points themselves write (`thumb_nb`,
`thumbs_inited`, `reset_collection`).  A reconciliation cycle must keep this
projection intact. -/
def coreFields (t : dt_thumbtable_t) :=
  (t.mode, t.thumbs_per_row, t.thumb_width, t.thumb_height, t.view_width, t.view_height,
   t.configured, t.collection_inited, t.collection_count, t.collection_hash,
   t.min_row_id, t.max_row_id, t.v_scroll_value, t.v_scroll_page, t.h_scroll_value,
   t.h_scroll_page, t.x_position, t.y_position, t.mouse_over_id, t.keyboard_over_id)

/-- A typical configured grid state: two columns of 50-pixel cells in a
100 by 100 viewport, a two-image collection (ids 7 and 9), populate window
covering the whole collection, nothing materialized yet. -/
def baseTable : dt_thumbtable_t :=
  { mode := DT_THUMBTABLE_MODE_FILEMANAGER, thumbs_per_row := 2, thumb_width := 50,
    thumb_height := 50, view_width := 100, view_height := 100, configured := true,
    collection_inited := true, thumbs_inited := false, reset_collection := false,
    collection_count := 2, collection_hash := 0,
    lut := some [{ imgid := 7, thumb := none }, { imgid := 9, thumb := none }],
    list := [], thumb_nb := 0, min_row_id := 0, max_row_id := 2,
    v_scroll_value := 0, v_scroll_page := 100, h_scroll_value := 0, h_scroll_page := 100,
    x_position := 0, y_position := 0, mouse_over_id := -1, keyboard_over_id := -1,
    next_tid := 0 }

/-- A state entering the collect phase with 211 live thumbnails at positions
0..210, all belonging to the current collection, window `[0, 10]`: the
counter-example state for the eviction policy. -/
def exC1 : dt_thumbtable_t :=
  { baseTable with
    collection_count := 211,
    lut := some ((List.range 211).map (fun (i : Nat) => { imgid := (i : Int), thumb := some i })),
    list := (List.range 211).map (fun (i : Nat) =>
      { tid := i, imgid := (i : Int), rowid := (i : Int), width := 50, height := 50, x := 0, y := 0 }),
    thumb_nb := 211, min_row_id := 0, max_row_id := 10, next_tid := 211 }

/-- A small collect-phase state above the threshold: 213 previously counted
thumbnails, of which the two listed ones are in the collection, one inside
and one outside the window `[0, 10]`. -/
def wC1state : dt_thumbtable_t :=
  { baseTable with
    collection_count := 30,
    lut := some ((List.range 30).map (fun (i : Nat) => { imgid := (i : Int), thumb := some i })),
    list := [{ tid := 5, imgid := 5, rowid := 5, width := 50, height := 50, x := 0, y := 0 },
             { tid := 20, imgid := 20, rowid := 20, width := 50, height := 50, x := 0, y := 0 }],
    thumb_nb := 213, min_row_id := 0, max_row_id := 10, next_tid := 30 }

/-- A state whose dataset is empty and whose Index was never built: the
failing input for END navigation on `n = 0`. -/
def exC4 : dt_thumbtable_t :=
  { baseTable with collection_count := 0, lut := none }

/-- A state holding a previously built two-entry Index (ids 5 and 6) under
fingerprint 111, about to see a dataset change. -/
def exC5 : dt_thumbtable_t :=
  { baseTable with
    collection_hash := 111,
    lut := some [{ imgid := 5, thumb := none }, { imgid := 6, thumb := none }] }

/-- A configured filmstrip state: 100-pixel cells, scrolled to 1000 with a
500-pixel page, so cells 10..14 are fully visible. -/
def exC7 : dt_thumbtable_t :=
  { baseTable with
    mode := DT_THUMBTABLE_MODE_FILMSTRIP, thumbs_per_row := 1,
    thumb_width := 100, thumb_height := 100,
    h_scroll_value := 1000, h_scroll_page := 500 }

/-- A configured state whose column count is zero (degenerate geometry), with
a one-image collection and an empty live list. -/
def exC9 : dt_thumbtable_t :=
  { baseTable with
    thumbs_per_row := 0,
    collection_count := 1, lut := some [{ imgid := 7, thumb := none }], max_row_id := 1 }

/-! Helper lemmas. -/

theorem gcGo_nil (t : dt_thumbtable_t) (lut : List dt_thumbtable_cache_t) (num : Int) :
    gcGo t [] lut num = ([], lut, num) := rfl

theorem gcGo_cons (t : dt_thumbtable_t) (th : dt_thumbnail_t) (rest : List dt_thumbnail_t)
    (lut : List dt_thumbtable_cache_t) (num : Int) :
    gcGo t (th :: rest) lut num =
      if (decide (t.thumb_nb + num > 210) && gcOutsideB t th) || !(!gcStaleB lut th) then
        gcGo t rest
          (if !gcStaleB lut th then
            lut.set th.rowid.toNat { lut.getD th.rowid.toNat lutSentinel with thumb := none }
          else lut) (num - 1)
      else
        (th :: (gcGo t rest lut num).1, (gcGo t rest lut num).2.1, (gcGo t rest lut num).2.2) :=
  rfl

theorem getD_set_imgid (lut : List dt_thumbtable_cache_t) (i : Nat)
    (e' : dt_thumbtable_cache_t) (h : e'.imgid = (lut.getD i lutSentinel).imgid) (j : Nat) :
    ((lut.set i e').getD j lutSentinel).imgid = (lut.getD j lutSentinel).imgid := by
  by_cases hij : i = j
  · subst hij
    by_cases hlen : i < lut.length
    · rw [List.getD_eq_getElem?_getD, List.getElem?_set_self hlen, Option.getD_some]
      exact h
    · rw [List.set_eq_of_length_le (Nat.le_of_not_lt hlen)]
  · rw [List.getD_eq_getElem?_getD, List.getElem?_set_ne hij, ← List.getD_eq_getElem?_getD]

theorem lutImgidAt_set_preserve (lut : List dt_thumbtable_cache_t) (i : Nat)
    (e' : dt_thumbtable_cache_t) (h : e'.imgid = (lut.getD i lutSentinel).imgid) (r : Int) :
    lutImgidAt (lut.set i e') r = lutImgidAt lut r :=
  getD_set_imgid lut i e' h r.toNat

theorem lutImgidAt_clear_thumb (L : List dt_thumbtable_cache_t) (n : Nat) (r : Int) :
    lutImgidAt (L.set n { L.getD n lutSentinel with thumb := none }) r = lutImgidAt L r :=
  lutImgidAt_set_preserve L n { L.getD n lutSentinel with thumb := none } rfl r

theorem gcGo_lut_imgids (t : dt_thumbtable_t) :
    ∀ (xs : List dt_thumbnail_t) (lut : List dt_thumbtable_cache_t) (num : Int) (r : Int),
      lutImgidAt (gcGo t xs lut num).2.1 r = lutImgidAt lut r := by
  intro xs
  induction xs with
  | nil => intro lut num r; rfl
  | cons th rest ih =>
    intro lut num r
    rw [gcGo_cons]
    split
    · split
      · rw [ih, lutImgidAt_clear_thumb]
      · exact ih ..
    · exact ih ..

theorem gcStaleB_congr (lut1 lut2 : List dt_thumbtable_cache_t)
    (h : ∀ r, lutImgidAt lut1 r = lutImgidAt lut2 r) (th : dt_thumbnail_t) :
    gcStaleB lut1 th = gcStaleB lut2 th := by
  unfold gcStaleB
  rw [h]

theorem mem_gcGo (t : dt_thumbtable_t) :
    ∀ (xs : List dt_thumbnail_t) (lut : List dt_thumbtable_cache_t) (num : Int)
      (th : dt_thumbnail_t), th ∈ (gcGo t xs lut num).1 →
      th ∈ xs ∧ gcStaleB lut th = false := by
  intro xs
  induction xs with
  | nil => intro lut num th hmem; rw [gcGo_nil] at hmem; cases hmem
  | cons th0 rest ih =>
    intro lut num th hmem
    rw [gcGo_cons] at hmem
    by_cases hcond :
        ((decide (t.thumb_nb + num > 210) && gcOutsideB t th0) || !(!gcStaleB lut th0)) = true
    · rw [if_pos hcond] at hmem
      by_cases hin : (!gcStaleB lut th0) = true
      · rw [if_pos hin] at hmem
        have h2 := ih _ _ _ hmem
        refine ⟨List.mem_cons_of_mem _ h2.1, ?_⟩
        rw [← h2.2]
        exact (gcStaleB_congr _ _ (fun r => lutImgidAt_clear_thumb _ _ r) th).symm
      · rw [if_neg hin] at hmem
        have h2 := ih _ _ _ hmem
        exact ⟨List.mem_cons_of_mem _ h2.1, h2.2⟩
    · rw [if_neg hcond] at hmem
      rcases List.mem_cons.mp hmem with hth | hth
      · subst hth
        refine ⟨List.mem_cons_self .., ?_⟩
        simp only [Bool.or_eq_true, Bool.not_not, Bool.and_eq_true, not_or] at hcond
        simpa using hcond.2
      · have h2 := ih _ _ _ hth
        exact ⟨List.mem_cons_of_mem _ h2.1, h2.2⟩

theorem gcGo_le_threshold (t : dt_thumbtable_t) :
    ∀ (xs : List dt_thumbnail_t) (lut : List dt_thumbtable_cache_t) (num : Int),
      t.thumb_nb + num ≤ 210 →
      (gcGo t xs lut num).1 = xs.filter (fun th => !gcStaleB lut th) := by
  intro xs
  induction xs with
  | nil => intro lut num _; rfl
  | cons th rest ih =>
    intro lut num hle
    rw [gcGo_cons]
    have hdec : decide (t.thumb_nb + num > 210) = false := by
      simp only [decide_eq_false_iff_not]
      omega
    rw [hdec]
    simp only [Bool.false_and, Bool.false_or, Bool.not_not]
    by_cases hst : gcStaleB lut th = true
    · rw [if_pos hst, if_neg (by simp [hst])]
      rw [List.filter_cons_of_neg (by simp [hst])]
      exact ih lut (num - 1) (by omega)
    · have hst' : gcStaleB lut th = false := by simpa using hst
      rw [if_neg (by simp [hst']), List.filter_cons_of_pos (by simp [hst'])]
      rw [ih lut num hle]

theorem gcGo_gt_threshold (t : dt_thumbtable_t) :
    ∀ (xs : List dt_thumbnail_t) (lut lut0 : List dt_thumbtable_cache_t) (num : Int),
      (∀ r, lutImgidAt lut r = lutImgidAt lut0 r) →
      t.thumb_nb + num -
        ((xs.countP (fun th => gcStaleB lut0 th || gcOutsideB t th) : Int)) > 210 →
      (gcGo t xs lut num).1 =
        xs.filter (fun th => !gcStaleB lut0 th && !gcOutsideB t th) := by
  intro xs
  induction xs with
  | nil => intro lut lut0 num _ _; rfl
  | cons th rest ih =>
    intro lut lut0 num hinv hgt
    have hcount : ((th :: rest).countP (fun th => gcStaleB lut0 th || gcOutsideB t th) : Int)
        = (rest.countP (fun th => gcStaleB lut0 th || gcOutsideB t th) : Int)
          + (if (gcStaleB lut0 th || gcOutsideB t th) = true then 1 else 0) := by
      rw [List.countP_cons]
      split <;> simp
    have hcnt_nonneg : (0 : Int) ≤ (rest.countP (fun th => gcStaleB lut0 th || gcOutsideB t th) : Int) :=
      Int.ofNat_nonneg _
    have hdec : decide (t.thumb_nb + num > 210) = true := by
      simp only [decide_eq_true_eq]
      rw [hcount] at hgt
      split at hgt <;> omega
    rw [gcGo_cons, hdec]
    simp only [Bool.true_and, Bool.not_not]
    have hstc := gcStaleB_congr lut lut0 hinv th
    by_cases hst : gcStaleB lut0 th = true
    · rw [if_pos (by simp [hstc, hst]), List.filter_cons_of_neg (by simp [hst])]
      have hinv1 : ∀ r,
          lutImgidAt (if !gcStaleB lut th then
              lut.set th.rowid.toNat { lut.getD th.rowid.toNat lutSentinel with thumb := none }
            else lut) r = lutImgidAt lut0 r := by
        intro r
        split
        · rw [lutImgidAt_clear_thumb, hinv]
        · exact hinv r
      refine ih _ lut0 (num - 1) hinv1 ?_
      rw [hcount, if_pos (by simp [hst])] at hgt
      omega
    · have hst' : gcStaleB lut0 th = false := by simpa using hst
      by_cases hout : gcOutsideB t th = true
      · rw [if_pos (by simp [hout]), List.filter_cons_of_neg (by simp [hout])]
        have hinv1 : ∀ r,
            lutImgidAt (if !gcStaleB lut th then
                lut.set th.rowid.toNat { lut.getD th.rowid.toNat lutSentinel with thumb := none }
              else lut) r = lutImgidAt lut0 r := by
          intro r
          split
          · rw [lutImgidAt_clear_thumb, hinv]
          · exact hinv r
        refine ih _ lut0 (num - 1) hinv1 ?_
        rw [hcount, if_pos (by simp [hout])] at hgt
        omega
      · have hout' : gcOutsideB t th = false := by simpa using hout
        rw [if_neg (by simp [hstc, hst', hout']), List.filter_cons_of_pos (by simp [hst', hout'])]
        rw [ih lut lut0 num hinv ?_]
        rw [hcount, if_neg (by simp [hst', hout'])] at hgt
        omega

/-! Field-preservation helpers for the thumbnail refit operations. -/

theorem refit_preserves (t : dt_thumbtable_t) (th : dt_thumbnail_t) :
    (setThumbPositionD t (dt_thumbnail_resize t th)).tid = th.tid
    ∧ (setThumbPositionD t (dt_thumbnail_resize t th)).rowid = th.rowid
    ∧ (setThumbPositionD t (dt_thumbnail_resize t th)).imgid = th.imgid := by
  unfold setThumbPositionD _set_thumb_position dt_thumbnail_resize
  split <;> simp

theorem lutImgidAt_natCast (lut : List dt_thumbtable_cache_t) (i : Nat) :
    lutImgidAt lut (i : Int) = (lut.getD i lutSentinel).imgid := by
  unfold lutImgidAt
  rw [Int.toNat_natCast]

/-! Per-step populate lemmas. -/

theorem populateStep_core (t : dt_thumbtable_t) (num : Int) (i : Nat) :
    coreFields (populateStep t num i).1 = coreFields t := by
  dsimp only [populateStep]
  split
  · rfl
  · split
    · rfl
    · split
      · rfl
      · rfl

theorem populateStep_tid_mono (t : dt_thumbtable_t) (num : Int) (i : Nat) :
    t.next_tid ≤ (populateStep t num i).1.next_tid := by
  dsimp only [populateStep]
  split
  · exact Nat.le_succ _
  · split
    · exact Nat.le_refl _
    · split
      · exact Nat.le_refl _
      · exact Nat.le_refl _

theorem populateStep_lutList_imgids (t : dt_thumbtable_t) (num : Int) (i : Nat) (r : Int) :
    lutImgidAt (lutList (populateStep t num i).1) r = lutImgidAt (lutList t) r := by
  dsimp only [populateStep]
  split
  · show lutImgidAt ((lutList t).set i _) r = _
    exact lutImgidAt_set_preserve (lutList t) i
      { (lutList t).getD i lutSentinel with thumb := some t.next_tid } rfl r
  · split
    · rfl
    · split
      · rfl
      · rfl

theorem populateStep_lut (t : dt_thumbtable_t) (num : Int) (i : Nat)
    (l : List dt_thumbtable_cache_t) (h : t.lut = some l) :
    ∃ l', (populateStep t num i).1.lut = some l'
      ∧ l'.length = l.length ∧ (∀ r, lutImgidAt l' r = lutImgidAt l r) := by
  have hl : lutList t = l := by rw [lutList, h]; rfl
  dsimp only [populateStep]
  split
  · refine ⟨(lutList t).set i { (lutList t).getD i lutSentinel with thumb := some t.next_tid },
      rfl, ?_, ?_⟩
    · rw [List.length_set, hl]
    · intro r
      rw [hl]
      exact lutImgidAt_set_preserve l i { l.getD i lutSentinel with thumb := some t.next_tid } rfl r
  · split
    · exact ⟨l, h, rfl, fun r => rfl⟩
    · split
      · exact ⟨l, h, rfl, fun r => rfl⟩
      · exact ⟨l, h, rfl, fun r => rfl⟩

theorem populateStep_length_mono (t : dt_thumbtable_t) (num : Int) (i : Nat) :
    t.list.length ≤ (populateStep t num i).1.list.length := by
  dsimp only [populateStep]
  split
  · exact Nat.le_succ _
  · split
    · exact Nat.le_refl _
    · split
      · simp
      · exact Nat.le_refl _

theorem mem_populateStep (t : dt_thumbtable_t) (num : Int) (i : Nat) (th : dt_thumbnail_t)
    (hmem : th ∈ (populateStep t num i).1.list) :
    (∃ th0 ∈ t.list, th.tid = th0.tid ∧ th.rowid = th0.rowid ∧ th.imgid = th0.imgid)
    ∨ (th.tid = t.next_tid ∧ th.rowid = (i : Int)
        ∧ th.imgid = lutImgidAt (lutList t) (i : Int)) := by
  revert hmem
  dsimp only [populateStep]
  split
  · intro hmem
    rcases List.mem_cons.mp hmem with h | h
    · right
      have hp := refit_preserves t
        (dt_thumbnail_new ((lutList t).getD i lutSentinel).imgid (i : Int) t.next_tid)
      subst h
      refine ⟨hp.1, hp.2.1, ?_⟩
      rw [hp.2.2, lutImgidAt_natCast]
      rfl
    · exact Or.inl ⟨th, h, rfl, rfl, rfl⟩
  · split
    · intro hmem
      exact Or.inl ⟨th, hmem, rfl, rfl, rfl⟩
    · rename_i tid hth xf th1 hfind
      split
      · intro hmem
        rcases List.mem_map.mp hmem with ⟨u, hu, hEq⟩
        have hp := refit_preserves t th1
        have hmem1 := List.mem_of_find?_eq_some hfind
        split at hEq
        · exact Or.inl ⟨th1, hmem1, by rw [← hEq]; exact hp.1,
            by rw [← hEq]; exact hp.2.1, by rw [← hEq]; exact hp.2.2⟩
        · exact Or.inl ⟨u, hu, by rw [← hEq], by rw [← hEq], by rw [← hEq]⟩
      · intro hmem
        exact Or.inl ⟨th, hmem, rfl, rfl, rfl⟩

/-! Populate-loop lemmas, by induction over the visited positions. -/

theorem populateLoop_core (idxs : List Nat) :
    ∀ (t : dt_thumbtable_t) (num : Int),
      coreFields (populateLoop idxs t num).1 = coreFields t := by
  induction idxs with
  | nil => intro t num; rfl
  | cons i rest ih =>
    intro t num
    show coreFields (populateLoop rest (populateStep t num i).1 (populateStep t num i).2).1 = _
    rw [ih, populateStep_core]

theorem populateLoop_tid_mono (idxs : List Nat) :
    ∀ (t : dt_thumbtable_t) (num : Int),
      t.next_tid ≤ (populateLoop idxs t num).1.next_tid := by
  induction idxs with
  | nil => intro t num; exact Nat.le_refl _
  | cons i rest ih =>
    intro t num
    exact Nat.le_trans (populateStep_tid_mono t num i)
      (ih (populateStep t num i).1 (populateStep t num i).2)

theorem populateLoop_lutList_imgids (idxs : List Nat) :
    ∀ (t : dt_thumbtable_t) (num : Int) (r : Int),
      lutImgidAt (lutList (populateLoop idxs t num).1) r = lutImgidAt (lutList t) r := by
  induction idxs with
  | nil => intro t num r; rfl
  | cons i rest ih =>
    intro t num r
    show lutImgidAt (lutList (populateLoop rest (populateStep t num i).1 (populateStep t num i).2).1) r = _
    rw [ih, populateStep_lutList_imgids]

theorem populateLoop_lut (idxs : List Nat) :
    ∀ (t : dt_thumbtable_t) (num : Int) (l : List dt_thumbtable_cache_t), t.lut = some l →
      ∃ l', (populateLoop idxs t num).1.lut = some l'
        ∧ l'.length = l.length ∧ (∀ r, lutImgidAt l' r = lutImgidAt l r) := by
  induction idxs with
  | nil => intro t num l h; exact ⟨l, h, rfl, fun r => rfl⟩
  | cons i rest ih =>
    intro t num l h
    rcases populateStep_lut t num i l h with ⟨l1, h1, hlen1, himg1⟩
    rcases ih (populateStep t num i).1 (populateStep t num i).2 l1 h1 with ⟨l2, h2, hlen2, himg2⟩
    exact ⟨l2, h2, by rw [hlen2, hlen1], fun r => by rw [himg2 r, himg1 r]⟩

theorem populateLoop_length_mono (idxs : List Nat) :
    ∀ (t : dt_thumbtable_t) (num : Int),
      t.list.length ≤ (populateLoop idxs t num).1.list.length := by
  induction idxs with
  | nil => intro t num; exact Nat.le_refl _
  | cons i rest ih =>
    intro t num
    exact Nat.le_trans (populateStep_length_mono t num i)
      (ih (populateStep t num i).1 (populateStep t num i).2)

theorem mem_populateLoop (idxs : List Nat) :
    ∀ (t : dt_thumbtable_t) (num : Int) (th : dt_thumbnail_t),
      th ∈ (populateLoop idxs t num).1.list →
      (∃ th0 ∈ t.list, th.tid = th0.tid ∧ th.rowid = th0.rowid ∧ th.imgid = th0.imgid)
      ∨ (t.next_tid ≤ th.tid ∧ ∃ i ∈ idxs, th.rowid = (i : Int)
          ∧ th.imgid = lutImgidAt (lutList t) (i : Int)) := by
  induction idxs with
  | nil =>
    intro t num th hmem
    exact Or.inl ⟨th, hmem, rfl, rfl, rfl⟩
  | cons i rest ih =>
    intro t num th hmem
    rcases ih (populateStep t num i).1 (populateStep t num i).2 th hmem with
      ⟨th0, h0mem, he1, he2, he3⟩ | ⟨htid, j, hj, he2, he3⟩
    · rcases mem_populateStep t num i th0 h0mem with
        ⟨th1, h1mem, hf1, hf2, hf3⟩ | ⟨hf1, hf2, hf3⟩
      · exact Or.inl ⟨th1, h1mem, by rw [he1, hf1], by rw [he2, hf2], by rw [he3, hf3]⟩
      · exact Or.inr ⟨by rw [he1, hf1], i, List.mem_cons_self .., by rw [he2, hf2],
          by rw [he3, hf3]⟩
    · refine Or.inr ⟨Nat.le_trans (populateStep_tid_mono t num i) htid,
        j, List.mem_cons_of_mem _ hj, he2, ?_⟩
      rw [he3, populateStep_lutList_imgids]

theorem populateUpper_le (t : dt_thumbtable_t) : populateUpper t ≤ t.collection_count := by
  unfold populateUpper
  split
  · exact Nat.le_refl _
  · exact Nat.min_le_right _ _

theorem mem_populateRange_lt (t : dt_thumbtable_t) (i : Nat) (h : i ∈ populateRange t) :
    i < populateUpper t := by
  unfold populateRange at h
  rw [List.mem_range'] at h
  omega



/-! Garbage-collection and resize lemmas at the table level. -/

theorem gcGo_lut_length (t : dt_thumbtable_t) :
    ∀ (xs : List dt_thumbnail_t) (lut : List dt_thumbtable_cache_t) (num : Int),
      (gcGo t xs lut num).2.1.length = lut.length := by
  intro xs
  induction xs with
  | nil => intro lut num; rfl
  | cons th rest ih =>
    intro lut num
    rw [gcGo_cons]
    split
    · rw [ih]
      split
      · rw [List.length_set]
      · rfl
    · exact ih ..

theorem gc_core (t : dt_thumbtable_t) (num : Int) :
    coreFields (_garbage_collection t num).1 = coreFields t := rfl

theorem gc_next_tid (t : dt_thumbtable_t) (num : Int) :
    (_garbage_collection t num).1.next_tid = t.next_tid := rfl

theorem gc_list (t : dt_thumbtable_t) (num : Int) :
    (_garbage_collection t num).1.list = (gcGo t t.list (lutList t) num).1 := rfl

theorem gc_lut (t : dt_thumbtable_t) (num : Int) (l : List dt_thumbtable_cache_t)
    (h : t.lut = some l) :
    ∃ l', (_garbage_collection t num).1.lut = some l'
      ∧ l'.length = l.length ∧ (∀ r, lutImgidAt l' r = lutImgidAt l r) := by
  have hl : lutList t = l := by rw [lutList, h]; rfl
  refine ⟨(gcGo t t.list (lutList t) num).2.1, ?_, ?_, ?_⟩
  · show (if t.lut.isSome then some (gcGo t t.list (lutList t) num).2.1 else none) = _
    rw [h]
    rfl
  · rw [gcGo_lut_length, hl]
  · intro r
    rw [gcGo_lut_imgids, hl]

theorem mem_resize (t : dt_thumbtable_t) (th : dt_thumbnail_t)
    (hmem : th ∈ (_resize_thumbnails t).list) :
    ∃ th0 ∈ t.list, th.tid = th0.tid ∧ th.rowid = th0.rowid ∧ th.imgid = th0.imgid := by
  rcases List.mem_map.mp hmem with ⟨u, hu, hEq⟩
  have hp := refit_preserves t u
  split at hEq
  · exact ⟨u, hu, by rw [← hEq]; exact hp.1, by rw [← hEq]; exact hp.2.1,
      by rw [← hEq]; exact hp.2.2⟩
  · exact ⟨u, hu, by rw [← hEq], by rw [← hEq], by rw [← hEq]⟩

theorem resize_core (t : dt_thumbtable_t) :
    coreFields (_resize_thumbnails t) = coreFields t := rfl

theorem resize_next_tid (t : dt_thumbtable_t) :
    (_resize_thumbnails t).next_tid = t.next_tid := rfl

theorem resize_lut (t : dt_thumbtable_t) : (_resize_thumbnails t).lut = t.lut := rfl

/-! Reset-step and update-body shape lemmas. -/

theorem updateT1_lut (t : dt_thumbtable_t) : (updateT1 t).lut = t.lut := by
  unfold updateT1
  split <;> rfl

theorem updateT1_next_tid (t : dt_thumbtable_t) : (updateT1 t).next_tid = t.next_tid := by
  unfold updateT1
  split <;> rfl

theorem updateT1_core (t : dt_thumbtable_t) : coreFields (updateT1 t) = coreFields t := by
  unfold updateT1
  split <;> rfl

theorem updateT1_list_sub (t : dt_thumbtable_t) (th : dt_thumbnail_t)
    (h : th ∈ (updateT1 t).list) : th ∈ t.list := by
  revert h
  unfold updateT1
  split
  · intro h
    cases h
  · exact fun h => h

theorem updateBody_empty (t : dt_thumbtable_t) (h : (updateT1 t).list.isEmpty = true) :
    updateBody t =
      { (_populate_thumbnails (updateT1 t) 0).1 with
        thumb_nb := (_populate_thumbnails (updateT1 t) 0).1.thumb_nb
          + (_populate_thumbnails (updateT1 t) 0).2,
        thumbs_inited := true } := by
  dsimp only [updateBody]
  rw [h]
  rfl

theorem updateBody_nonempty (t : dt_thumbtable_t) (h : (updateT1 t).list.isEmpty = false) :
    updateBody t =
      { _resize_thumbnails (_garbage_collection (_populate_thumbnails (updateT1 t) 0).1
          (_populate_thumbnails (updateT1 t) 0).2).1 with
        thumb_nb := (_resize_thumbnails (_garbage_collection
            (_populate_thumbnails (updateT1 t) 0).1
            (_populate_thumbnails (updateT1 t) 0).2).1).thumb_nb
          + (_garbage_collection (_populate_thumbnails (updateT1 t) 0).1
              (_populate_thumbnails (updateT1 t) 0).2).2,
        thumbs_inited := true } := by
  dsimp only [updateBody]
  rw [h]
  rfl

theorem update_guard_false (t : dt_thumbtable_t)
    (hg : (t.lut.isNone || !t.configured || !t.collection_inited || t.thumbs_inited) = false) :
    dt_thumbtable_update t = updateBody t := by
  rw [dt_thumbtable_update, if_neg]
  rw [hg]
  exact Bool.false_ne_true



theorem _populate_thumbnails_eq (t : dt_thumbtable_t) (num : Int) :
    _populate_thumbnails t num = populateLoop (populateRange t) t num := rfl

theorem populateStep_count (t : dt_thumbtable_t) (num : Int) (i : Nat) :
    (populateStep t num i).1.collection_count = t.collection_count := by
  dsimp only [populateStep]
  split
  · rfl
  · split
    · rfl
    · split
      · rfl
      · rfl

theorem populateLoop_count (idxs : List Nat) :
    ∀ (t : dt_thumbtable_t) (num : Int),
      (populateLoop idxs t num).1.collection_count = t.collection_count := by
  induction idxs with
  | nil => intro t num; rfl
  | cons i rest ih =>
    intro t num
    show (populateLoop rest (populateStep t num i).1 (populateStep t num i).2).1.collection_count = _
    rw [ih, populateStep_count]

theorem updateT1_count (t : dt_thumbtable_t) :
    (updateT1 t).collection_count = t.collection_count := by
  unfold updateT1
  split <;> rfl

theorem update_sync (t : dt_thumbtable_t) (l : List dt_thumbtable_cache_t)
    (hl : t.lut = some l)
    (hconf : t.configured = true) (hci : t.collection_inited = true)
    (hti : t.thumbs_inited = false)
    (hbound : ∀ th ∈ t.list, 0 ≤ th.rowid ∧ th.rowid.toNat < t.collection_count)
    (htid : ∀ th ∈ t.list, th.tid < t.next_tid)
    (hnodup : (t.list.map (fun th => th.tid)).Nodup) :
    (∃ lpost, (dt_thumbtable_update t).lut = some lpost ∧ lpost.length = l.length
        ∧ ∀ r, lutImgidAt lpost r = lutImgidAt l r)
    ∧ (∀ th ∈ (dt_thumbtable_update t).list,
         0 ≤ th.rowid ∧ th.rowid.toNat < t.collection_count ∧ lutImgidAt l th.rowid = th.imgid)
    ∧ (∀ th ∈ t.list, lutImgidAt l th.rowid ≠ th.imgid →
         ∀ th2 ∈ (dt_thumbtable_update t).list, th2.tid ≠ th.tid) := by
  have hg : (t.lut.isNone || !t.configured || !t.collection_inited || t.thumbs_inited) = false := by
    rw [hl, hconf, hci, hti]
    rfl
  rw [update_guard_false t hg]
  have hT1lut : (updateT1 t).lut = some l := by rw [updateT1_lut, hl]
  have hT1lutList : lutList (updateT1 t) = l := by rw [lutList, hT1lut]; rfl
  have hT1tid : (updateT1 t).next_tid = t.next_tid := updateT1_next_tid t
  have hnewbound : ∀ (i : Nat), i ∈ populateRange (updateT1 t) → i < t.collection_count := by
    intro i hi
    have h1 := mem_populateRange_lt (updateT1 t) i hi
    have h2 := populateUpper_le (updateT1 t)
    have h3 := updateT1_count t
    omega
  rcases populateLoop_lut (populateRange (updateT1 t)) (updateT1 t) 0 l hT1lut with
    ⟨lp, hplut, hplen, hpim⟩
  have hPlutList : lutList (populateLoop (populateRange (updateT1 t)) (updateT1 t) 0).1 = lp := by
    rw [lutList, hplut]
    rfl
  cases hempty : (updateT1 t).list.isEmpty with
  | true =>
    rw [updateBody_empty t hempty]
    have hT1nil : (updateT1 t).list = [] := List.isEmpty_iff.mp hempty
    refine ⟨⟨lp, hplut, hplen, hpim⟩, ?_, ?_⟩
    · intro th hmem
      have hmem' : th ∈ (populateLoop (populateRange (updateT1 t)) (updateT1 t) 0).1.list := hmem
      rcases mem_populateLoop _ _ _ _ hmem' with ⟨th0, h0, _, _, _⟩ | ⟨_, i, hi, he2, he3⟩
      · rw [hT1nil] at h0
        cases h0
      · have hic := hnewbound i hi
        refine ⟨by rw [he2]; exact Int.natCast_nonneg i, by rw [he2, Int.toNat_natCast]; exact hic, ?_⟩
        rw [he2, he3, hT1lutList]
    · intro th hthmem hstale th2 h2mem
      have h2mem' : th2 ∈ (populateLoop (populateRange (updateT1 t)) (updateT1 t) 0).1.list := h2mem
      rcases mem_populateLoop _ _ _ _ h2mem' with ⟨th0, h0, _, _, _⟩ | ⟨htid2, _, _, _, _⟩
      · rw [hT1nil] at h0
        cases h0
      · intro hEq
        have h3 := htid th hthmem
        rw [hT1tid] at htid2
        omega
  | false =>
    rw [updateBody_nonempty t hempty]
    rcases gc_lut (populateLoop (populateRange (updateT1 t)) (updateT1 t) 0).1
        (populateLoop (populateRange (updateT1 t)) (updateT1 t) 0).2 lp hplut with
      ⟨lg, hglut, hglen, hgim⟩
    have hsyncOf : ∀ thg : dt_thumbnail_t,
        gcStaleB (lutList (populateLoop (populateRange (updateT1 t)) (updateT1 t) 0).1) thg = false →
        lutImgidAt l thg.rowid = thg.imgid := by
      intro thg hnstale
      unfold gcStaleB at hnstale
      rw [hPlutList] at hnstale
      have h5 : thg.imgid = lutImgidAt lp thg.rowid := by simpa using hnstale
      rw [← hpim thg.rowid]
      exact h5.symm
    refine ⟨⟨lg, ?_, by rw [hglen, hplen], fun r => by rw [hgim r, hpim r]⟩, ?_, ?_⟩
    · show (_resize_thumbnails _).lut = some lg
      rw [resize_lut]
      exact hglut
    · intro th hmem
      rcases mem_resize _ th hmem with ⟨thg, hgmem, hq1, hq2, hq3⟩
      rw [gc_list] at hgmem
      rcases mem_gcGo _ _ _ _ thg hgmem with ⟨hpm, hnstale⟩
      have hsync := hsyncOf thg hnstale
      rcases mem_populateLoop _ _ _ thg hpm with ⟨th0, h0mem, hb1, hb2, hb3⟩ | ⟨_, i, hi, hb2, hb3⟩
      · have hb := hbound th0 (updateT1_list_sub t th0 h0mem)
        refine ⟨by rw [hq2, hb2]; exact hb.1, by rw [hq2, hb2]; exact hb.2, ?_⟩
        rw [hq2, hq3]
        exact hsync
      · have hic := hnewbound i hi
        refine ⟨by rw [hq2, hb2]; exact Int.natCast_nonneg i,
          by rw [hq2, hb2, Int.toNat_natCast]; exact hic, ?_⟩
        rw [hq2, hq3]
        exact hsync
    · intro th hthmem hstale th2 h2mem hEqtid
      rcases mem_resize _ th2 h2mem with ⟨thg, hgmem, hq1, hq2, hq3⟩
      rw [gc_list] at hgmem
      rcases mem_gcGo _ _ _ _ thg hgmem with ⟨hpm, hnstale⟩
      have hsync := hsyncOf thg hnstale
      have htgtid : thg.tid = th.tid := by rw [← hq1, hEqtid]
      rcases mem_populateLoop _ _ _ thg hpm with ⟨th0, h0mem, hb1, hb2, hb3⟩ | ⟨htidge, _, _, _, _⟩
      · have h0mem' := updateT1_list_sub t th0 h0mem
        have h00 : th0 = th :=
          List.inj_on_of_nodup_map hnodup h0mem' hthmem (by rw [← hb1, htgtid])
        apply hstale
        rw [← h00, ← hb2, ← hb3]
        exact hsync
      · have h3 := htid th hthmem
        rw [hT1tid] at htidge
        omega

/-! Claim C1. -/

/-- C1, counterexample: the claim states that with more than 210 live objects
a non-stale object is destroyed whenever its position lies outside the
half-open window `[min_position, max_position)`.  In `exC1` there are 211
live thumbnails (`thumb_nb = 211`), the window is `[0, 10]`, and the
thumbnail at position 10 is not stale; its position 10 satisfies
`10 ≥ max_row_id`, so the claim demands its destruction, yet the collect
phase keeps it (the source tests `rowid > max_row_id`, a closed window).
The thumbnail at position 12 is outside the window on any reading, yet is
also kept, because destroying the thumbnail at position 11 already dropped
the running counter to 210. -/
theorem C1_counterexample :
    exC1.thumb_nb + 0 > 210
    ∧ (10 : Int) ≥ exC1.max_row_id
    ∧ gcStaleB (lutList exC1)
        { tid := 10, imgid := 10, rowid := 10, width := 50, height := 50, x := 0, y := 0 } = false
    ∧ ({ tid := 10, imgid := 10, rowid := 10, width := 50, height := 50, x := 0, y := 0 } :
        dt_thumbnail_t) ∈ ((_garbage_collection exC1 0).1).list
    ∧ (12 : Int) ≥ exC1.max_row_id
    ∧ gcStaleB (lutList exC1)
        { tid := 12, imgid := 12, rowid := 12, width := 50, height := 50, x := 0, y := 0 } = false
    ∧ ({ tid := 12, imgid := 12, rowid := 12, width := 50, height := 50, x := 0, y := 0 } :
        dt_thumbnail_t) ∈ ((_garbage_collection exC1 0).1).list := by
  decide

/-- C1, amended: during the collect phase a live object is destroyed if and
only if (a) it is stale — `Index[object.position].identifier` differs from
`object.identifier` — or (b) the live-object counter at the moment the object
is examined (`thumb_nb + num_thumb`, which decreases as objects are destroyed
during the pass) exceeds 210 and `object.position` lies outside the CLOSED
window `[min_position, max_position]`.  In particular: when the counter
starts at or below 210, exactly the stale objects are destroyed (off-window
objects are retained); when the counter still exceeds 210 after all possible
destructions, exactly the stale and the outside-the-closed-window objects
are destroyed. -/
theorem C1_collect_phase_eviction (t : dt_thumbtable_t) (num : Int) :
    (t.thumb_nb + num ≤ 210 →
      ((_garbage_collection t num).1).list = t.list.filter (fun th => !gcStaleB (lutList t) th))
    ∧ (t.thumb_nb + num -
         ((t.list.countP (fun th => gcStaleB (lutList t) th || gcOutsideB t th) : Int)) > 210 →
      ((_garbage_collection t num).1).list
        = t.list.filter (fun th => !gcStaleB (lutList t) th && !gcOutsideB t th)) := by
  constructor
  · intro h
    show (gcGo t t.list (lutList t) num).1 = _
    exact gcGo_le_threshold t t.list (lutList t) num h
  · intro h
    show (gcGo t t.list (lutList t) num).1 = _
    exact gcGo_gt_threshold t t.list (lutList t) (lutList t) num (fun r => rfl) h

/-- C1, witness: in `wC1state` (counter 213, window `[0, 10]`, one in-window
and one out-of-window live thumbnail, both of the current collection) the
collect phase destroys exactly the out-of-window thumbnail. -/
theorem C1_witness :
    ((_garbage_collection wC1state 0).1).list
      = wC1state.list.filter
          (fun th => !gcStaleB (lutList wC1state) th && !gcOutsideB wC1state th) :=
  (C1_collect_phase_eviction wC1state 0).2 (by decide)

/-! Counter and hover-global preservation through the update cycle. -/

theorem populateStep_mouse (t : dt_thumbtable_t) (num : Int) (i : Nat) :
    (populateStep t num i).1.mouse_over_id = t.mouse_over_id
    ∧ (populateStep t num i).1.keyboard_over_id = t.keyboard_over_id := by
  dsimp only [populateStep]
  split
  · exact ⟨rfl, rfl⟩
  · split
    · exact ⟨rfl, rfl⟩
    · split
      · exact ⟨rfl, rfl⟩
      · exact ⟨rfl, rfl⟩

theorem populateLoop_mouse (idxs : List Nat) :
    ∀ (t : dt_thumbtable_t) (num : Int),
      (populateLoop idxs t num).1.mouse_over_id = t.mouse_over_id
      ∧ (populateLoop idxs t num).1.keyboard_over_id = t.keyboard_over_id := by
  induction idxs with
  | nil => intro t num; exact ⟨rfl, rfl⟩
  | cons i rest ih =>
    intro t num
    have h1 := ih (populateStep t num i).1 (populateStep t num i).2
    have h2 := populateStep_mouse t num i
    refine ⟨?_, ?_⟩
    · show (populateLoop rest (populateStep t num i).1 (populateStep t num i).2).1.mouse_over_id = _
      rw [h1.1, h2.1]
    · show (populateLoop rest (populateStep t num i).1
          (populateStep t num i).2).1.keyboard_over_id = _
      rw [h1.2, h2.2]

theorem updateT1_mouse (t : dt_thumbtable_t) :
    (updateT1 t).mouse_over_id = t.mouse_over_id
    ∧ (updateT1 t).keyboard_over_id = t.keyboard_over_id := by
  unfold updateT1
  split <;> exact ⟨rfl, rfl⟩

theorem updateBody_mouse (t : dt_thumbtable_t) :
    (updateBody t).mouse_over_id = t.mouse_over_id
    ∧ (updateBody t).keyboard_over_id = t.keyboard_over_id := by
  unfold updateBody
  dsimp only
  have h1 := populateLoop_mouse (populateRange (updateT1 t)) (updateT1 t) 0
  have h2 := updateT1_mouse t
  split
  · refine ⟨?_, ?_⟩
    · show (populateLoop (populateRange (updateT1 t)) (updateT1 t) 0).1.mouse_over_id = _
      rw [h1.1, h2.1]
    · show (populateLoop (populateRange (updateT1 t)) (updateT1 t) 0).1.keyboard_over_id = _
      rw [h1.2, h2.2]
  · refine ⟨?_, ?_⟩
    · show (populateLoop (populateRange (updateT1 t)) (updateT1 t) 0).1.mouse_over_id = _
      rw [h1.1, h2.1]
    · show (populateLoop (populateRange (updateT1 t)) (updateT1 t) 0).1.keyboard_over_id = _
      rw [h1.2, h2.2]

theorem update_mouse (t : dt_thumbtable_t) :
    (dt_thumbtable_update t).mouse_over_id = t.mouse_over_id
    ∧ (dt_thumbtable_update t).keyboard_over_id = t.keyboard_over_id := by
  rw [dt_thumbtable_update]
  split
  · exact ⟨rfl, rfl⟩
  · exact updateBody_mouse t

theorem updateBody_count (t : dt_thumbtable_t) :
    (updateBody t).collection_count = t.collection_count := by
  unfold updateBody
  dsimp only
  split
  · show (populateLoop (populateRange (updateT1 t)) (updateT1 t) 0).1.collection_count = _
    rw [populateLoop_count, updateT1_count]
  · show (populateLoop (populateRange (updateT1 t)) (updateT1 t) 0).1.collection_count = _
    rw [populateLoop_count, updateT1_count]

theorem update_count (t : dt_thumbtable_t) :
    (dt_thumbtable_update t).collection_count = t.collection_count := by
  rw [dt_thumbtable_update]
  split
  · rfl
  · exact updateBody_count t

/-! The Index scan of `_imgid_to_rowid`. -/

theorem lutFindRow_spec :
    ∀ (xs : List dt_thumbtable_cache_t) (imgid : Int) (i k : Nat) (hk : k < xs.length),
      xs[k].imgid = imgid →
      (∀ (j : Nat) (hj : j < xs.length), xs[j].imgid = imgid → j = k) →
      lutFindRow xs imgid i = (i : Int) + (k : Int) := by
  intro xs
  induction xs with
  | nil =>
    intro imgid i k hk
    exact absurd hk (Nat.not_lt_zero k)
  | cons e rest ih =>
    intro imgid i k hk hke huniq
    unfold lutFindRow
    by_cases he : e.imgid = imgid
    · rw [if_pos he]
      have h0 : (0 : Nat) = k := huniq 0 (Nat.zero_lt_succ _) (by simpa using he)
      rw [← h0]
      simp
    · rw [if_neg he]
      cases k with
      | zero => exact absurd (by simpa using hke) he
      | succ k2 =>
        have huniq2 : ∀ (j : Nat) (hj : j < rest.length), rest[j].imgid = imgid → j = k2 := by
          intro j hj hjim
          have := huniq (j + 1) (by simp only [List.length_cons]; omega) (by simpa using hjim)
          omega
        have := ih imgid (i + 1) k2 (by simpa using hk) (by simpa using hke) huniq2
        rw [this]
        push_cast
        ring



/-- C2: after a completed update() cycle (the entry guard passed: Index
present, geometry configured, collection known, populate state dirty), every
live object remaining in LiveSet satisfies
`Index[o.position].identifier = o.identifier`; and every pre-cycle live
object whose identifier disagrees with its Index slot is destroyed by the
cycle — no surviving object carries its identity — regardless of whether its
position lies in the viewport window.  The in-bounds hypothesis reflects that
`_garbage_collection` reads `lut[thumb->rowid]` without a bounds check
(undefined in C for out-of-range positions); identities are pairwise distinct
and below the allocator, as creation guarantees. -/
theorem C2_sync_invariant (t : dt_thumbtable_t) (l : List dt_thumbtable_cache_t)
    (hl : t.lut = some l)
    (hlen : l.length = t.collection_count)
    (hconf : t.configured = true) (hci : t.collection_inited = true)
    (hti : t.thumbs_inited = false)
    (hbound : ∀ th ∈ t.list, 0 ≤ th.rowid ∧ th.rowid.toNat < t.collection_count)
    (htid : ∀ th ∈ t.list, th.tid < t.next_tid)
    (hnodup : (t.list.map (fun th => th.tid)).Nodup) :
    (∀ th ∈ (dt_thumbtable_update t).list,
        lutImgid? (dt_thumbtable_update t) th.rowid = some th.imgid)
    ∧ (∀ th ∈ t.list, lutImgid? t th.rowid ≠ some th.imgid →
        ∀ th2 ∈ (dt_thumbtable_update t).list, th2.tid ≠ th.tid) := by
  rcases update_sync t l hl hconf hci hti hbound htid hnodup with
    ⟨⟨lpost, hpl, hplen, hpim⟩, hmem, hstale⟩
  constructor
  · intro th hmem2
    rcases hmem th hmem2 with ⟨h0, hlt, hsync⟩
    simp only [lutImgid?, lutEntry?, hpl]
    rw [if_neg (by omega)]
    have hlt2 : th.rowid.toNat < lpost.length := by rw [hplen, hlen]; exact hlt
    rw [List.get?_eq_getElem?, List.getElem?_eq_getElem hlt2]
    have h6 : lutImgidAt lpost th.rowid = th.imgid := by rw [hpim]; exact hsync
    unfold lutImgidAt at h6
    rw [List.getD_eq_getElem?_getD, List.getElem?_eq_getElem hlt2, Option.getD_some] at h6
    simp [h6]
  · intro th hthm hst
    apply hstale th hthm
    intro hContra
    apply hst
    rcases hbound th hthm with ⟨h0, hlt⟩
    simp only [lutImgid?, lutEntry?, hl]
    rw [if_neg (by omega)]
    have hlt2 : th.rowid.toNat < l.length := by rw [hlen]; exact hlt
    rw [List.get?_eq_getElem?, List.getElem?_eq_getElem hlt2]
    unfold lutImgidAt at hContra
    rw [List.getD_eq_getElem?_getD, List.getElem?_eq_getElem hlt2, Option.getD_some] at hContra
    simp [hContra]

/-- C2, witness: updating `baseTable` materializes the thumbnail of image 7
at position 0, and the invariant read back at position 0 yields image 7. -/
theorem C2_witness :
    lutImgid? (dt_thumbtable_update baseTable) (0 : Int) = some 7 :=
  (C2_sync_invariant baseTable
      [{ imgid := 7, thumb := none }, { imgid := 9, thumb := none }]
      rfl rfl rfl rfl rfl (by decide) (by decide) (by decide)).1
    { tid := 0, imgid := 7, rowid := 0, width := 50, height := 50, x := 0, y := 0 }
    (by decide)

/-- C3: update() is idempotent — for every cache state, running the cycle a
second time with no intervening event leaves the whole state, and so in
particular the LiveSet with all its positions and coordinates, unchanged:
the second call is a no-op (the first run either aborted at the guard,
leaving the state intact, or set `thumbs_inited`, which the guard checks). -/
theorem C3_update_idempotent (t : dt_thumbtable_t) :
    dt_thumbtable_update (dt_thumbtable_update t) = dt_thumbtable_update t := by
  by_cases hg : (t.lut.isNone || !t.configured || !t.collection_inited || t.thumbs_inited) = true
  · have h1 : dt_thumbtable_update t = t := by rw [dt_thumbtable_update, if_pos hg]
    rw [h1, h1]
  · have hg2 : (t.lut.isNone || !t.configured || !t.collection_inited || t.thumbs_inited) = false :=
      Bool.not_eq_true _ ▸ eq_false_of_ne_true hg
    have h1 : dt_thumbtable_update t = updateBody t := update_guard_false t hg2
    have h2 : (updateBody t).thumbs_inited = true := by
      unfold updateBody
      rfl
    rw [h1, dt_thumbtable_update, if_pos (by rw [h2]; simp)]

/-- C8: for every live object present in LiveSet after a completed update()
cycle, looking its identifier up in the Index (`_imgid_to_rowid`, the
spec's `lookup_position`) returns exactly the object's stored position.
Requires the dataset identifiers to be pairwise distinct, the Index length
to match the cardinality, and the well-formedness hypotheses of C2. -/
theorem C8_lookup_roundtrip (t : dt_thumbtable_t) (l : List dt_thumbtable_cache_t)
    (hl : t.lut = some l)
    (hlen : l.length = t.collection_count)
    (hconf : t.configured = true) (hci : t.collection_inited = true)
    (hti : t.thumbs_inited = false)
    (hbound : ∀ th ∈ t.list, 0 ≤ th.rowid ∧ th.rowid.toNat < t.collection_count)
    (htid : ∀ th ∈ t.list, th.tid < t.next_tid)
    (hnodup : (t.list.map (fun th => th.tid)).Nodup)
    (hinj : (l.map (fun e => e.imgid)).Nodup) :
    ∀ th ∈ (dt_thumbtable_update t).list,
      _imgid_to_rowid (dt_thumbtable_update t) th.imgid = th.rowid := by
  rcases update_sync t l hl hconf hci hti hbound htid hnodup with
    ⟨⟨lpost, hpl, hplen, hpim⟩, hmem, _⟩
  intro th hthm
  rcases hmem th hthm with ⟨h0, hlt, hsync⟩
  simp only [_imgid_to_rowid, hpl]
  rw [update_count]
  have htake : lpost.take t.collection_count = lpost :=
    List.take_of_length_le (by rw [hplen, hlen])
  rw [htake]
  have hk : th.rowid.toNat < lpost.length := by rw [hplen, hlen]; exact hlt
  have hkl : th.rowid.toNat < l.length := by rw [hlen]; exact hlt
  have himgAt : ∀ (j : Nat) (hj1 : j < lpost.length) (hj2 : j < l.length),
      lpost[j].imgid = l[j].imgid := by
    intro j hj1 hj2
    have h7 := hpim (j : Int)
    unfold lutImgidAt at h7
    rw [Int.toNat_natCast, List.getD_eq_getElem?_getD, List.getElem?_eq_getElem hj1,
      Option.getD_some, List.getD_eq_getElem?_getD, List.getElem?_eq_getElem hj2,
      Option.getD_some] at h7
    exact h7
  have hkim : lpost[th.rowid.toNat].imgid = th.imgid := by
    have h6 : lutImgidAt lpost th.rowid = th.imgid := by rw [hpim]; exact hsync
    unfold lutImgidAt at h6
    rw [List.getD_eq_getElem?_getD, List.getElem?_eq_getElem hk, Option.getD_some] at h6
    exact h6
  have huniq : ∀ (j : Nat) (hj : j < lpost.length), lpost[j].imgid = th.imgid →
      j = th.rowid.toNat := by
    intro j hj hjim
    have hjl : j < l.length := by rw [← hplen]; exact hj
    have hj3 : j < (l.map (fun e => e.imgid)).length := by simpa using hjl
    have hk3 : th.rowid.toNat < (l.map (fun e => e.imgid)).length := by simpa using hkl
    have hmapj : (l.map (fun e => e.imgid))[j]
        = (l.map (fun e => e.imgid))[th.rowid.toNat] := by
      rw [List.getElem_map, List.getElem_map]
      rw [← himgAt j hj hjl, hjim, ← himgAt th.rowid.toNat hk hkl, hkim]
    have hinj2 := List.nodup_iff_injective_get.mp hinj
    have h8 := @hinj2 ⟨j, hj3⟩ ⟨th.rowid.toNat, hk3⟩ (by simpa using hmapj)
    simpa using h8
  rw [lutFindRow_spec lpost th.imgid 0 th.rowid.toNat hk hkim huniq]
  omega

/-- C8, witness: after updating `baseTable`, looking up image 9 returns its
position 1, the stored position of its live thumbnail. -/
theorem C8_witness :
    _imgid_to_rowid (dt_thumbtable_update baseTable) (9 : Int) = (1 : Int) :=
  C8_lookup_roundtrip baseTable
    [{ imgid := 7, thumb := none }, { imgid := 9, thumb := none }]
    rfl rfl rfl rfl rfl (by decide) (by decide) (by decide) (by decide)
    { tid := 1, imgid := 9, rowid := 1, width := 50, height := 50, x := 50, y := 0 }
    (by decide)

/-- C4: the claim also asserts that on an empty dataset (`n = 0`) navigation
is a no-op with no out-of-bounds access; the code instead clamps the target
to `CLAMP(-1 + 0, 0, -1) = 0` and dereferences `table->lut[0]` — through a
null Index here, an out-of-bounds or stale read in general — modelled as the
`none` outcome.  This theorem evaluates the navigation at the failing input:
END on an empty, never-built collection. -/
theorem C4_end_on_empty_dataset :
    exC4.collection_count = 0 ∧ _move_in_grid exC4 DT_TT_MOVE_END 5 = none := by
  decide

/-- C5, counterexample: with a two-entry Index under fingerprint 111, a
dataset change to fingerprint 222 with 3 images whose Index allocation fails
leaves the cache with a null Index and the NEW cardinality 3 (the previous
Index was freed, the previous cardinality overwritten), and the rebuild path
reports 1 exactly as a successful rebuild would; an empty fetch result under
fingerprint 333 overwrites the cardinality with 0 while keeping the stale
Index allocation.  The claim's `previous Index and cardinality unchanged,
failure surfaced` fails on both paths. -/
theorem C5_counterexample :
    exC5.lut = some [{ imgid := 5, thumb := none }, { imgid := 6, thumb := none }]
    ∧ exC5.collection_count = 2
    ∧ (_dt_collection_get_hash exC5 222 3 [7, 8, 9] false).1.lut = none
    ∧ (_dt_collection_get_hash exC5 222 3 [7, 8, 9] false).1.collection_count = 3
    ∧ (_dt_collection_get_hash exC5 222 3 [7, 8, 9] false).2 = 1
    ∧ (_dt_collection_get_hash exC5 333 0 [] true).1.collection_count = 0
    ∧ (_dt_collection_get_hash exC5 333 0 [] true).1.lut
        = some [{ imgid := 5, thumb := none }, { imgid := 6, thumb := none }] := by
  decide

/-- C5, amended: on an empty fetch result the Index rebuild sets the
cardinality to 0 and returns with the previous Index allocation still in
place; on allocation failure the previous Index has already been freed (the
lut is left null) and the newly fetched cardinality is kept; and the rebuild
path reports the same value (1, `changed`) whether or not the allocation
succeeded — no failure is surfaced to the caller. -/
theorem C5_fetch_failure (t : dt_thumbtable_t) (fetched : List Int) (ok : Bool)
    (hash : Int) (num_pics : Nat) :
    (_dt_collection_lut t [] ok = { t with collection_count := 0 })
    ∧ (fetched ≠ [] →
        (_dt_collection_lut t fetched false).lut = none
        ∧ (_dt_collection_lut t fetched false).collection_count = fetched.length)
    ∧ (hash ≠ t.collection_hash → (_dt_collection_get_hash t hash num_pics fetched ok).2 = 1) := by
  refine ⟨?_, ?_, ?_⟩
  · unfold _dt_collection_lut
    rw [if_pos rfl]
  · intro hne
    unfold _dt_collection_lut
    rw [if_neg hne, if_pos rfl]
    exact ⟨rfl, rfl⟩
  · intro hh
    unfold _dt_collection_get_hash
    rw [if_pos (Or.inl hh)]

/-- C5, witness: the amended behaviour at concrete inputs — empty fetch
zeroes the cardinality of `exC5` and keeps its Index; a failed allocation for
a two-image fetch leaves a null Index; a changed fingerprint reports 1. -/
theorem C5_witness :
    (_dt_collection_lut exC5 [] true = { exC5 with collection_count := 0 })
    ∧ (_dt_collection_lut exC5 [7, 8] false).lut = none
    ∧ (_dt_collection_get_hash exC5 222 2 [7, 8] true).2 = 1 :=
  ⟨(C5_fetch_failure exC5 [7, 8] true 222 2).1,
   ((C5_fetch_failure exC5 [7, 8] true 222 2).2.1 (by decide)).1,
   (C5_fetch_failure exC5 [7, 8] true 222 2).2.2 (by decide)⟩

/-- C6: for every position `p ≥ 0` and configured geometry with
`columns ≥ 1`, the position-to-coordinates computation yields, in GRID
(filemanager) mode, `x = (p mod columns) * cell_width` and
`y = (p div columns) * cell_height`; in STRIP (filmstrip) mode,
`x = p * cell_width` and `y = 0`; and when `columns < 1` it returns a
not-computable result (`none`) instead of dividing. -/
theorem C6_position_to_coords (t : dt_thumbtable_t) (th : dt_thumbnail_t) :
    (t.mode = DT_THUMBTABLE_MODE_FILEMANAGER → 1 ≤ t.thumbs_per_row → 0 ≤ th.rowid →
      _set_thumb_position t th
        = some { th with x := th.rowid % t.thumbs_per_row * t.thumb_width,
                         y := th.rowid / t.thumbs_per_row * t.thumb_height })
    ∧ (t.mode = DT_THUMBTABLE_MODE_FILMSTRIP → 1 ≤ t.thumbs_per_row →
      _set_thumb_position t th = some { th with x := th.rowid * t.thumb_width, y := 0 })
    ∧ (t.thumbs_per_row < 1 → _set_thumb_position t th = none) := by
  refine ⟨?_, ?_, ?_⟩
  · intro hm hc h0
    unfold _set_thumb_position _rowid_to_position
    rw [if_neg (by omega), hm]
    rw [Int.tdiv_eq_ediv h0 (by omega), Int.tmod_eq_emod h0 (by omega)]
  · intro hm hc
    unfold _set_thumb_position _rowid_to_position
    rw [if_neg (by omega), hm]
  · intro hc
    unfold _set_thumb_position
    rw [if_pos hc]

/-- C6, witness: the three branches at concrete inputs — position 5 in the
two-column grid of `baseTable` lands at `(5 mod 2)·50, (5 div 2)·50`;
position 5 in the filmstrip `exC7` lands at `5·100, 0`; and the degenerate
zero-column table `exC9` yields no position. -/
theorem C6_witness :
    (_set_thumb_position baseTable
        { tid := 0, imgid := 7, rowid := 5, width := 50, height := 50, x := 1, y := 2 }
      = some { tid := 0, imgid := 7, rowid := 5, width := 50, height := 50,
               x := (5 : Int) % baseTable.thumbs_per_row * baseTable.thumb_width,
               y := (5 : Int) / baseTable.thumbs_per_row * baseTable.thumb_height })
    ∧ (_set_thumb_position exC7
          { tid := 0, imgid := 7, rowid := 5, width := 50, height := 50, x := 1, y := 2 }
        = some { tid := 0, imgid := 7, rowid := 5, width := 50, height := 50,
                 x := (5 : Int) * exC7.thumb_width, y := 0 })
    ∧ _set_thumb_position exC9
        { tid := 0, imgid := 7, rowid := 5, width := 50, height := 50, x := 1, y := 2 }
      = none :=
  ⟨(C6_position_to_coords baseTable
      { tid := 0, imgid := 7, rowid := 5, width := 50, height := 50, x := 1, y := 2 }).1
      rfl (by decide) (by decide),
   (C6_position_to_coords exC7
      { tid := 0, imgid := 7, rowid := 5, width := 50, height := 50, x := 1, y := 2 }).2.1
      rfl (by decide),
   (C6_position_to_coords exC9
      { tid := 0, imgid := 7, rowid := 5, width := 50, height := 50, x := 1, y := 2 }).2.2
      (by decide)⟩



/-- C9, counterexample: `exC9` has a zero column count yet its geometry is
marked configured; running update() on it is NOT an abort — it mutates the
LiveSet by materializing the thumbnail of image 7 at position 0 (with its
coordinates left at their creation defaults, since the position is not
computable). -/
theorem C9_counterexample :
    exC9.thumbs_per_row < 1 ∧ exC9.configured = true ∧ exC9.list = []
    ∧ (dt_thumbtable_update exC9).list
        = [{ tid := 0, imgid := 7, rowid := 0, width := 50, height := 50, x := 0, y := 0 }] := by
  decide

/-- C9, amended: a column count below 1 is NOT treated as unconfigured and
does not abort the cycle: `_grid_configure` sets the configured flag for any
column count (given adequate pixel sizes), and `dt_thumbtable_update` on a
configured state with a valid Index and an unmaterialized position in its
window still creates a thumbnail (the LiveSet is mutated); only the
per-thumbnail coordinate computation refuses to run (`_set_thumb_position`
returns `none`), which is what keeps the cycle from dividing by the column
count. -/
theorem C9_degenerate_columns (t : dt_thumbtable_t) (w h c : Int) (th : dt_thumbnail_t)
    (l : List dt_thumbtable_cache_t)
    (hl : t.lut = some l)
    (hconf : t.configured = true) (hci : t.collection_inited = true)
    (hti : t.thumbs_inited = false)
    (hreset : t.reset_collection = false) (hnil : t.list = [])
    (hcol : t.thumbs_per_row < 1)
    (hlow : populateLower t < populateUpper t)
    (hfresh : ((lutList t).getD (populateLower t) lutSentinel).thumb = none)
    (hw : 32 ≤ w) (hh : 32 ≤ h) :
    (_grid_configure t w h c).configured = true
    ∧ _set_thumb_position t th = none
    ∧ (dt_thumbtable_update t).list ≠ [] := by
  refine ⟨?_, ?_, ?_⟩
  · unfold _grid_configure
    rw [if_neg (by omega)]
  · unfold _set_thumb_position
    rw [if_pos hcol]
  · have hg : (t.lut.isNone || !t.configured || !t.collection_inited || t.thumbs_inited) = false := by
      rw [hl, hconf, hci, hti]
      rfl
    rw [update_guard_false t hg]
    have hT1 : updateT1 t = t := by
      unfold updateT1
      rw [hreset]
      rfl
    have hempty : (updateT1 t).list.isEmpty = true := by rw [hT1, hnil]; rfl
    rw [updateBody_empty t hempty]
    show (_populate_thumbnails (updateT1 t) 0).1.list ≠ []
    rw [_populate_thumbnails_eq, hT1]
    obtain ⟨k, hk⟩ : ∃ k, populateUpper t - populateLower t = k + 1 :=
      ⟨populateUpper t - populateLower t - 1, by omega⟩
    have hrange : populateRange t = populateLower t :: List.range' (populateLower t + 1) k := by
      unfold populateRange
      rw [hk]
      rfl
    rw [hrange]
    have hstep : (populateStep t 0 (populateLower t)).1.list.length = t.list.length + 1 := by
      dsimp only [populateStep]
      rw [hfresh]
      simp
    have hmono := populateLoop_length_mono (List.range' (populateLower t + 1) k)
      (populateStep t 0 (populateLower t)).1 (populateStep t 0 (populateLower t)).2
    have hlen2 : 0 <
        (populateLoop (List.range' (populateLower t + 1) k)
          (populateStep t 0 (populateLower t)).1 (populateStep t 0 (populateLower t)).2).1.list.length := by
      omega
    intro hcon
    show False
    rw [show populateLoop (populateLower t :: List.range' (populateLower t + 1) k) t 0
        = populateLoop (List.range' (populateLower t + 1) k)
            (populateStep t 0 (populateLower t)).1 (populateStep t 0 (populateLower t)).2 from rfl] at hcon
    rw [hcon] at hlen2
    simp at hlen2

/-- C9, witness: the amended behaviour at `exC9` (zero columns, one-image
collection, window `[0, 1)`): configuring at 50 by 50 pixels flags the table
configured, the position computation yields none, and update() leaves a
non-empty LiveSet. -/
theorem C9_witness :
    (_grid_configure exC9 50 50 0).configured = true
    ∧ _set_thumb_position exC9
        { tid := 3, imgid := 4, rowid := 5, width := 6, height := 7, x := 8, y := 9 } = none
    ∧ (dt_thumbtable_update exC9).list ≠ [] :=
  C9_degenerate_columns exC9 50 50 0
    { tid := 3, imgid := 4, rowid := 5, width := 6, height := 7, x := 8, y := 9 }
    [{ imgid := 7, thumb := none }]
    rfl rfl rfl rfl rfl rfl (by decide) (by decide) (by decide) (by decide) (by decide)



/-- C7, counterexample: in STRIP (filmstrip) mode the window margin is not
two cells.  In `exC7` (100-pixel cells, scroll offset 1000, page 500) the
first touched cell is 10, so the claim's margin gives a window starting at
cell 8; the code computes `(position - page_size) / thumb_width = 5` — a
full page of margin. -/
theorem C7_counterexample :
    _get_row_ids exC7 0 210 = (true, 5, 20)
    ∧ specStripFirstTouchedCell exC7 = 10
    ∧ (5 : Int) ≠ specStripFirstTouchedCell exC7 - 2 := by
  decide

/-- C7, amended: in GRID (filemanager) mode the desired window is the touched
row range extended by exactly two rows of margin on each side:
`[(first_touched_row - 2)·columns, (last_touched_row + 2)·columns)`, and
every fully visible position lies inside that half-open window.  In STRIP
(filmstrip) mode the margin is page-sized, not two cells: the window is
`[trunc((position - page)/cell_width)·columns,
  trunc((position + 2·page)/cell_width)·columns)` (truncating division, one
page before and one page beyond the visible range). -/
theorem C7_window_margins (t : dt_thumbtable_t) :
    (t.mode = DT_THUMBTABLE_MODE_FILEMANAGER → t.configured = true →
      0 ≤ t.v_scroll_value → 0 ≤ t.v_scroll_page → 0 < t.thumb_height →
      ∀ a b : Int, _get_row_ids t a b
        = (true, (specGridFirstTouchedRow t - 2) * t.thumbs_per_row,
                 (specGridLastTouchedRow t + 2) * t.thumbs_per_row))
    ∧ (t.mode = DT_THUMBTABLE_MODE_FILEMANAGER → t.configured = true →
      0 ≤ t.v_scroll_value → 0 ≤ t.v_scroll_page → 0 < t.thumb_height →
      1 ≤ t.thumbs_per_row →
      ∀ r : Int, 0 ≤ r → _is_rowid_visible t r = true →
        (specGridFirstTouchedRow t - 2) * t.thumbs_per_row ≤ r
        ∧ r < (specGridLastTouchedRow t + 2) * t.thumbs_per_row)
    ∧ (t.mode = DT_THUMBTABLE_MODE_FILMSTRIP → t.configured = true →
      ∀ a b : Int, _get_row_ids t a b
        = (true, (t.h_scroll_value - t.h_scroll_page).tdiv t.thumb_width * t.thumbs_per_row,
                 (t.h_scroll_value + 2 * t.h_scroll_page).tdiv t.thumb_width * t.thumbs_per_row)) := by
  refine ⟨?_, ?_, ?_⟩
  · intro hm hconf hv hp hh a b
    unfold _get_row_ids
    rw [if_neg (by simp [hconf]), hm]
    dsimp only
    unfold specGridFirstTouchedRow specGridLastTouchedRow
    have h1 : t.v_scroll_value.tdiv t.thumb_height
        = t.v_scroll_value / t.thumb_height := Int.tdiv_eq_ediv hv (by omega)
    have h2 : (t.v_scroll_value + t.v_scroll_page).tdiv t.thumb_height
        = (t.v_scroll_value + t.v_scroll_page) / t.thumb_height :=
      Int.tdiv_eq_ediv (by omega) (by omega)
    rw [h1, h2]
  · intro hm hconf hv hp hh hc r hr hvis
    unfold _is_rowid_visible at hvis
    rw [if_neg (by simp [hconf]), hm] at hvis
    dsimp only at hvis
    have hvis2 := of_decide_eq_true hvis
    obtain ⟨htop, hbot⟩ := hvis2
    have hcpos : (0 : Int) < t.thumbs_per_row := by omega
    have ha : r.tdiv t.thumbs_per_row = r / t.thumbs_per_row :=
      Int.tdiv_eq_ediv hr (by omega)
    rw [ha] at htop hbot
    have hfirst : specGridFirstTouchedRow t ≤ r / t.thumbs_per_row := by
      unfold specGridFirstTouchedRow
      calc t.v_scroll_value / t.thumb_height
          ≤ (r / t.thumbs_per_row * t.thumb_height) / t.thumb_height :=
            Int.ediv_le_ediv hh htop
        _ = r / t.thumbs_per_row := Int.mul_ediv_cancel _ (by omega)
    have hlast : r / t.thumbs_per_row + 1 ≤ specGridLastTouchedRow t := by
      unfold specGridLastTouchedRow
      rw [Int.le_ediv_iff_mul_le hh]
      calc (r / t.thumbs_per_row + 1) * t.thumb_height
          = r / t.thumbs_per_row * t.thumb_height + t.thumb_height := by ring
        _ ≤ t.v_scroll_value + t.v_scroll_page := by omega
    have hdecomp : t.thumbs_per_row * (r / t.thumbs_per_row) + r % t.thumbs_per_row = r :=
      Int.ediv_add_emod r t.thumbs_per_row
    have hmod0 : 0 ≤ r % t.thumbs_per_row := Int.emod_nonneg r (by omega)
    have hmodlt : r % t.thumbs_per_row < t.thumbs_per_row := Int.emod_lt_of_pos r hcpos
    constructor
    · calc (specGridFirstTouchedRow t - 2) * t.thumbs_per_row
          ≤ (r / t.thumbs_per_row) * t.thumbs_per_row :=
            Int.mul_le_mul_of_nonneg_right (by omega) (by omega)
        _ ≤ r := Int.ediv_mul_le r (by omega)
    · calc r
          < (r / t.thumbs_per_row + 1) * t.thumbs_per_row :=
            Int.lt_ediv_add_one_mul_self r hcpos
        _ ≤ (specGridLastTouchedRow t + 2) * t.thumbs_per_row :=
            Int.mul_le_mul_of_nonneg_right (by omega) (by omega)
  · intro hm hconf a b
    unfold _get_row_ids
    rw [if_neg (by simp [hconf]), hm]



/-- C7, witness: the amended formulas at concrete states — the grid window of
`baseTable` (50-pixel rows, page 100, scroll 0) with its two-row margins,
containment of the visible position 0, and the page-sized filmstrip window of
`exC7`. -/
theorem C7_witness :
    (_get_row_ids baseTable 0 210
      = (true, (specGridFirstTouchedRow baseTable - 2) * baseTable.thumbs_per_row,
               (specGridLastTouchedRow baseTable + 2) * baseTable.thumbs_per_row))
    ∧ ((specGridFirstTouchedRow baseTable - 2) * baseTable.thumbs_per_row ≤ 0
        ∧ (0 : Int) < (specGridLastTouchedRow baseTable + 2) * baseTable.thumbs_per_row)
    ∧ (_get_row_ids exC7 0 210
      = (true, (exC7.h_scroll_value - exC7.h_scroll_page).tdiv exC7.thumb_width
                  * exC7.thumbs_per_row,
               (exC7.h_scroll_value + 2 * exC7.h_scroll_page).tdiv exC7.thumb_width
                  * exC7.thumbs_per_row)) :=
  ⟨(C7_window_margins baseTable).1 rfl rfl (by decide) (by decide) (by decide) 0 210,
   (C7_window_margins baseTable).2.1 rfl rfl (by decide) (by decide) (by decide) (by decide)
     0 (by decide) (by decide),
   (C7_window_margins exC7).2.2 rfl rfl 0 210⟩

/-! Navigation helpers for C10. -/

theorem cCLAMP_bounds (x low high : Int) (h : low ≤ high) :
    low ≤ cCLAMP x low high ∧ cCLAMP x low high ≤ high := by
  unfold cCLAMP
  split
  · omega
  · split <;> omega

theorem _update_row_ids_hover (t : dt_thumbtable_t) :
    (_update_row_ids t).mouse_over_id = t.mouse_over_id
    ∧ (_update_row_ids t).keyboard_over_id = t.keyboard_over_id := by
  unfold _update_row_ids
  dsimp only
  split <;> exact ⟨rfl, rfl⟩

theorem scroll_to_hover (t : dt_thumbtable_t) (imgid : Int) :
    (dt_thumbtable_scroll_to_imgid t imgid).mouse_over_id = t.mouse_over_id
    ∧ (dt_thumbtable_scroll_to_imgid t imgid).keyboard_over_id = t.keyboard_over_id := by
  unfold dt_thumbtable_scroll_to_imgid
  split
  · exact ⟨rfl, rfl⟩
  · dsimp only
    split
    · exact ⟨rfl, rfl⟩
    · constructor
      · show (_update_row_ids _).mouse_over_id = _
        rw [(_update_row_ids_hover _).1]
        show (_update_row_ids _).mouse_over_id = _
        rw [(_update_row_ids_hover _).1]
      · show (_update_row_ids _).keyboard_over_id = _
        rw [(_update_row_ids_hover _).2]
        show (_update_row_ids _).keyboard_over_id = _
        rw [(_update_row_ids_hover _).2]

theorem move_in_grid_spec (t : dt_thumbtable_t) (l : List dt_thumbtable_cache_t)
    (dir : dt_thumbtable_direction_t) (origin : Int)
    (hl : t.lut = some l) (hn : 0 < t.collection_count)
    (hlen : l.length = t.collection_count) :
    ∃ p, _move_in_grid t dir origin = some p
      ∧ p.2 = navTargetRowid t dir origin
      ∧ p.1.mouse_over_id = navTargetImgid t dir origin
      ∧ p.1.keyboard_over_id = navTargetImgid t dir origin := by
  have hrn : navTargetRowid t dir origin
      = cCLAMP (_imgid_to_rowid t origin + navOffset t dir origin) 0
          ((t.collection_count : Int) - 1) := rfl
  have hb : 0 ≤ navTargetRowid t dir origin
      ∧ navTargetRowid t dir origin ≤ (t.collection_count : Int) - 1 := by
    rw [hrn]
    exact cCLAMP_bounds _ _ _ (by omega)
  have htoNat : (navTargetRowid t dir origin).toNat < l.length := by
    rw [hlen]
    omega
  have hentry : lutEntry? t (navTargetRowid t dir origin)
      = some (l[(navTargetRowid t dir origin).toNat]) := by
    simp only [lutEntry?, hl]
    rw [if_neg (by omega), List.get?_eq_getElem?, List.getElem?_eq_getElem htoNat]
  have himg : (l[(navTargetRowid t dir origin).toNat]).imgid = navTargetImgid t dir origin := by
    unfold navTargetImgid lutImgidAt
    have hll : lutList t = l := by rw [lutList, hl]; rfl
    rw [hll, List.getD_eq_getElem?_getD, List.getElem?_eq_getElem htoNat, Option.getD_some]
  unfold _move_in_grid
  dsimp only
  rw [← hrn]
  rw [hentry]
  dsimp only
  split
  · refine ⟨_, rfl, rfl, ?_, ?_⟩
    · rw [(scroll_to_hover _ _).1]
      exact himg
    · rw [(scroll_to_hover _ _).2]
      exact himg
  · refine ⟨_, rfl, rfl, ?_, ?_⟩
    · rw [(update_mouse _).1]
      exact himg
    · rw [(update_mouse _).2]
      exact himg



/-- C10: every navigation move sets both the global mouse-over identifier and
the global keyboard-over identifier to the target position's identifier, for
every direction and every origin (resolvable or not), and this holds in both
outcome branches — the scroll-to branch taken when the target is outside the
viewport as well as the in-place refresh (update) branch taken when it is
already visible — since neither dispatch path touches the two globals after
they are assigned. -/
theorem C10_hover_globals (t : dt_thumbtable_t) (l : List dt_thumbtable_cache_t)
    (dir : dt_thumbtable_direction_t) (origin : Int)
    (hl : t.lut = some l) (hn : 0 < t.collection_count)
    (hlen : l.length = t.collection_count) :
    (_move_in_grid t dir origin).map
        (fun p => (p.1.mouse_over_id, p.1.keyboard_over_id))
      = some (navTargetImgid t dir origin, navTargetImgid t dir origin) := by
  rcases move_in_grid_spec t l dir origin hl hn hlen with ⟨p, hp, _, hm, hk⟩
  rw [hp, Option.map_some', hm, hk]

/-- C10, witness: a RIGHT move from image 7 in `baseTable` resolves to
position 1 (image 9) and leaves both hover globals at the target's
identifier. -/
theorem C10_witness :
    (_move_in_grid baseTable DT_TT_MOVE_RIGHT 7).map
        (fun p => (p.1.mouse_over_id, p.1.keyboard_over_id))
      = some (navTargetImgid baseTable DT_TT_MOVE_RIGHT 7,
              navTargetImgid baseTable DT_TT_MOVE_RIGHT 7) :=
  C10_hover_globals baseTable
    [{ imgid := 7, thumb := none }, { imgid := 9, thumb := none }]
    DT_TT_MOVE_RIGHT 7 rfl (by decide) rfl

end Thumbtable
